import Mathlib

/-!
# SuperTux `BadGuy` core: a shallow embedding

The definitions below follow `src/badguy/badguy.cpp`.  Stateful member
functions become functions on an explicit record; calls into collaborators
whose code is not part of the excerpt (sound, sector, dispenser, player,
bullet) are recorded in a `World` record, and the values read from them are
taken from an `Env` record.  Floats of the source are exact rationals here.
-/

namespace SuperTux

/-! ## Data model -/

/-- Two-dimensional vector (`math/vector.hpp`); a default-constructed one is zero. -/
structure Vector where
  x : ℚ
  y : ℚ
deriving DecidableEq

/-- Axis-aligned rectangle with upper-left corner `p1` and lower-right corner `p2`. -/
structure Rectf where
  p1 : Vector
  p2 : Vector
deriving DecidableEq

def Rectf.get_width (r : Rectf) : ℚ := r.p2.x - r.p1.x

def Rectf.get_height (r : Rectf) : ℚ := r.p2.y - r.p1.y

def Rectf.get_middle (r : Rectf) : Vector :=
  ⟨(r.p1.x + r.p2.x) / 2, (r.p1.y + r.p2.y) / 2⟩

inductive Direction
  | AUTO
  | LEFT
  | RIGHT
deriving DecidableEq, Repr

inductive State
  | STATE_INIT
  | STATE_INACTIVE
  | STATE_ACTIVE
  | STATE_SQUISHED
  | STATE_FALLING
  | STATE_BURNING
  | STATE_MELTING
  | STATE_GROUND_MELTING
  | STATE_INSIDE_MELTING
  | STATE_GEAR
deriving DecidableEq, Repr

inductive CollisionGroup
  | COLGROUP_DISABLED
  | COLGROUP_MOVING
  | COLGROUP_MOVING_ONLY_STATIC
  | COLGROUP_MOVING_STATIC
  | COLGROUP_STATIC
  | COLGROUP_TOUCHABLE
deriving DecidableEq, Repr

inductive HitResponse
  | ABORT_MOVE
  | CONTINUE
  | FORCE_MOVE
deriving DecidableEq, Repr

inductive BonusType
  | NO_BONUS
  | GROWUP_BONUS
  | FIRE_BONUS
  | ICE_BONUS
  | AIR_BONUS
  | EARTH_BONUS
deriving DecidableEq, Repr

/-- The flags of a `CollisionHit` that the badguy reads. -/
structure CollisionHit where
  left : Bool
  right : Bool
  top : Bool
  bottom : Bool
  crush : Bool
  slope_normal : Vector
deriving DecidableEq

def SQUISH_TIME : ℚ := 2

def GEAR_TIME : ℚ := 2

def BURN_TIME : ℚ := 1

def X_OFFSCREEN_DISTANCE : ℚ := 1280

def Y_OFFSCREEN_DISTANCE : ℚ := 800

/-- Modelled from the spec: the tile attribute bits of `supertux/tile.hpp`, which is
not part of the excerpt.  Only the four flags that `collision_tile` tests are listed. -/
def Tile.ICE : Nat := 0x0100

def Tile.WATER : Nat := 0x0200

def Tile.HURTS : Nat := 0x0400

def Tile.FIRE : Nat := 0x0800

/-- Modelled from the spec: the one-shot countdown `Timer` (`supertux/timer.hpp` is not part
of the excerpt).  `start` records the period and the game time at which it was started;
a period of zero means the timer is not running. -/
structure Timer where
  m_period : ℚ
  m_cycle_start : ℚ
deriving DecidableEq

/-- Modelled from the spec: starting a countdown of `period` seconds at game time `now`. -/
def Timer.start (now period : ℚ) : Timer := ⟨period, now⟩

/-- Modelled from the spec: `check` reports expiry once, when the period has elapsed,
and stops the timer. -/
def Timer.check (t : Timer) (now : ℚ) : Bool × Timer :=
  if t.m_period = 0 then (false, t)
  else if t.m_period ≤ now - t.m_cycle_start then (true, { t with m_period := 0 })
  else (false, t)

/-- Modelled from the spec: the physics adapter (`supertux/physic.hpp` is not part of the
excerpt): velocity, acceleration and a gravity switch. -/
structure Physic where
  vx : ℚ
  vy : ℚ
  ax : ℚ
  ay : ℚ
  gravity_enabled_flag : Bool
  gravity_modifier : ℚ
deriving DecidableEq

def Physic.set_velocity_x (p : Physic) (v : ℚ) : Physic := { p with vx := v }

def Physic.set_velocity_y (p : Physic) (v : ℚ) : Physic := { p with vy := v }

def Physic.set_acceleration_y (p : Physic) (a : ℚ) : Physic := { p with ay := a }

def Physic.enable_gravity (p : Physic) (g : Bool) : Physic := { p with gravity_enabled_flag := g }

def Physic.get_velocity (p : Physic) : Vector := ⟨p.vx, p.vy⟩

/-- Modelled from the spec: integration of velocity, acceleration and gravity into the
displacement of one tick; returns the displacement and the advanced physics state. -/
def Physic.get_movement (p : Physic) (gravity elapsed_time : ℚ) : Vector × Physic :=
  let grav : ℚ := if p.gravity_enabled_flag then gravity * p.gravity_modifier * 100 else 0
  (⟨(p.vx + p.ax * elapsed_time / 2) * elapsed_time,
    (p.vy + (p.ay + grav) * elapsed_time / 2) * elapsed_time⟩,
   { p with vx := p.vx + p.ax * elapsed_time, vy := p.vy + (p.ay + grav) * elapsed_time })

/-- Modelled from the spec: the part of a sprite the badguy core reads and writes
(`sprite/sprite.hpp` is not part of the excerpt): the names of the available actions, the
selected action, the number of animation loops left (`-1` loops forever) and the colour.
Whether the running animation is done is read from the environment of a tick. -/
structure Sprite where
  actions : List String
  action : String
  animation_loops : Int
  color : ℚ × ℚ × ℚ
deriving DecidableEq

def Sprite.has_action (s : Sprite) (name : String) : Bool := s.actions.contains name

def Sprite.set_action (s : Sprite) (name : String) (loops : Int) : Sprite :=
  { s with action := name, animation_loops := loops }

def Sprite.stop_animation (s : Sprite) : Sprite := { s with animation_loops := 0 }

def Sprite.set_animation_loops (s : Sprite) : Sprite := { s with animation_loops := -1 }

def Sprite.set_color (s : Sprite) (c : ℚ × ℚ × ℚ) : Sprite := { s with color := c }

/-- The player as seen by the badguy: bounding box and the three status queries. -/
structure Player where
  m_bbox : Rectf
  stone : Bool
  invincible : Bool
  m_does_buttjump : Bool
deriving DecidableEq

def Player.get_bbox (p : Player) : Rectf := p.m_bbox

def Player.is_stone (p : Player) : Bool := p.stone

def Player.is_invincible (p : Player) : Bool := p.invincible

/-- A projectile as seen by the badguy: its elemental type. -/
structure Bullet where
  type : BonusType
deriving DecidableEq

def Bullet.get_type (b : Bullet) : BonusType := b.type

/-- The collision counterpart, by the dynamic type that `collision` probes.  Of another
badguy only `is_active()` and `get_group()` are consulted. -/
inductive GameObject
  | badguy (active : Bool) (group : CollisionGroup)
  | player (p : Player)
  | bullet (b : Bullet)
  | something_else
deriving DecidableEq

/-- The badguy record: the members of `BadGuy` together with the inherited members
(`m_bbox`, `m_movement`, `m_group`, `m_layer`, `m_sprite`, removal request) that the core
touches.  The results of the virtual queries `is_flammable`, `is_freezable` and
`is_hurtable` are fields, so that every variant's answer is covered. -/
structure BadGuy where
  m_bbox : Rectf
  m_movement : Vector
  m_group : CollisionGroup
  m_layer : Int
  removed : Bool
  m_sprite : Sprite
  m_physic : Physic
  m_countMe : Bool
  m_is_initialized : Bool
  m_start_position : Vector
  m_dir : Direction
  m_start_dir : Direction
  m_frozen : Bool
  m_ignited : Bool
  m_in_water : Bool
  m_dead_script : String
  m_glowing : Bool
  m_state : State
  m_is_active_flag : Bool
  m_state_timer : Timer
  m_on_ground_flag : Bool
  m_floor_normal : Vector
  m_colgroup_active : CollisionGroup
  m_parent_dispenser : Bool
  flammable : Bool
  freezable : Bool
  hurtable : Bool
deriving DecidableEq

/-- A particle handed to the sector: sprite file, action, position, speed, acceleration. -/
structure SpriteParticle where
  sprite : String
  action : String
  pos : Vector
  speed : Vector
  acceleration : Vector
deriving DecidableEq

/-- Everything outside the badguy that the core writes to: the level-wide kill counter
and a record of the calls made to the collaborators. -/
structure World where
  m_badguys : Int
  notify_dead_calls : Nat
  scripts_run : List String
  sounds : List String
  particles : List SpriteParticle
  water_drops : List (Vector × Vector)
  player_bounces : Nat
  player_kills : Nat
  bullet_removals : Nat
  bullet_ricochets : Nat
  init_hook_calls : Nat
  activate_calls : Nat
  deactivate_calls : Nat
deriving DecidableEq

/-- The values the core reads from its collaborators during one call. -/
structure Env where
  inside : Rectf → Bool
  get_nearest_player : Rectf → Option Player
  editor_active : Bool
  camera_center : Vector
  game_time : ℚ
  gravity : ℚ
  foremost_layer : Int
  animation_done : Bool
  rand_pa : Int
  rand_px : ℚ
  rand_py : ℚ

/-- The badguy together with the world it acts on. -/
structure Sim where
  bg : BadGuy
  world : World
deriving DecidableEq

/-! ## Operations of `badguy.cpp` -/

def BadGuy.is_active (b : BadGuy) : Bool := b.m_is_active_flag

def BadGuy.is_frozen (b : BadGuy) : Bool := b.m_frozen

def BadGuy.is_ignited (b : BadGuy) : Bool := b.m_ignited

def BadGuy.is_in_water (b : BadGuy) : Bool := b.m_in_water

def BadGuy.on_ground (b : BadGuy) : Bool := b.m_on_ground_flag

def BadGuy.is_flammable (b : BadGuy) : Bool := b.flammable

def BadGuy.is_freezable (b : BadGuy) : Bool := b.freezable

def BadGuy.is_hurtable (b : BadGuy) : Bool := b.hurtable

def BadGuy.get_floor_normal (b : BadGuy) : Vector := b.m_floor_normal

def BadGuy.set_group (b : BadGuy) (g : CollisionGroup) : BadGuy := { b with m_group := g }

def BadGuy.remove_me (b : BadGuy) : BadGuy := { b with removed := true }

def BadGuy.is_valid (b : BadGuy) : Bool := !b.removed

def Sim.play (s : Sim) (sound : String) : Sim :=
  { s with world := { s.world with sounds := s.world.sounds ++ [sound] } }

def Sim.player_bounce (s : Sim) : Sim :=
  { s with world := { s.world with player_bounces := s.world.player_bounces + 1 } }

def Sim.player_kill (s : Sim) : Sim :=
  { s with world := { s.world with player_kills := s.world.player_kills + 1 } }

def Sim.bullet_remove_me (s : Sim) : Sim :=
  { s with world := { s.world with bullet_removals := s.world.bullet_removals + 1 } }

def Sim.bullet_ricochet (s : Sim) : Sim :=
  { s with world := { s.world with bullet_ricochets := s.world.bullet_ricochets + 1 } }

def Sim.add_particles (s : Sim) (ps : List SpriteParticle) : Sim :=
  { s with world := { s.world with particles := s.world.particles ++ ps } }

/-- The call `BadGuy::run_dead_script`. -/
def run_dead_script (s : Sim) : Sim :=
  let w1 : World :=
    if s.bg.m_countMe then { s.world with m_badguys := s.world.m_badguys + 1 } else s.world
  let b1 : BadGuy := { s.bg with m_countMe := false }
  let w2 : World :=
    if b1.m_parent_dispenser then { w1 with notify_dead_calls := w1.notify_dead_calls + 1 } else w1
  let w3 : World :=
    if b1.m_dead_script ≠ "" then { w2 with scripts_run := w2.scripts_run ++ [b1.m_dead_script] }
    else w2
  { bg := b1, world := w3 }

/-- The call `BadGuy::set_state`; the game time is what a started timer records. -/
def set_state (env : Env) (state_ : State) (b : BadGuy) : BadGuy :=
  if b.m_state = state_ then b
  else
    let laststate := b.m_state
    let b1 : BadGuy := { b with m_state := state_ }
    match state_ with
    | State.STATE_BURNING => { b1 with m_state_timer := Timer.start env.game_time BURN_TIME }
    | State.STATE_SQUISHED => { b1 with m_state_timer := Timer.start env.game_time SQUISH_TIME }
    | State.STATE_GEAR => { b1 with m_state_timer := Timer.start env.game_time GEAR_TIME }
    | State.STATE_ACTIVE => b1.set_group b1.m_colgroup_active
    | State.STATE_INACTIVE =>
      let b2 : BadGuy :=
        if laststate = State.STATE_SQUISHED ∨ laststate = State.STATE_FALLING then b1.remove_me
        else b1
      b2.set_group CollisionGroup.COLGROUP_DISABLED
    | State.STATE_FALLING => b1.set_group CollisionGroup.COLGROUP_DISABLED
    | _ => b1

/-- The call `BadGuy::is_offscreen`. -/
def is_offscreen (env : Env) (b : BadGuy) : Bool :=
  let dist0 : Vector := ⟨0, 0⟩
  let dist1 : Vector :=
    if env.editor_active then
      ⟨env.camera_center.x - b.m_bbox.get_middle.x, env.camera_center.y - b.m_bbox.get_middle.y⟩
    else dist0
  match env.get_nearest_player b.m_bbox with
  | none => false
  | some player =>
    let dist : Vector :=
      if !env.editor_active then
        ⟨player.get_bbox.get_middle.x - b.m_bbox.get_middle.x,
         player.get_bbox.get_middle.y - b.m_bbox.get_middle.y⟩
      else dist1
    if |dist.x| ≤ X_OFFSCREEN_DISTANCE ∧ |dist.y| ≤ Y_OFFSCREEN_DISTANCE then false else true

/-- The empty hook `BadGuy::initialize`; the call is recorded. -/
def init_hook (s : Sim) : Sim :=
  { s with world := { s.world with init_hook_calls := s.world.init_hook_calls + 1 } }

/-- The empty hook `BadGuy::activate`; the call is recorded. -/
def activate (s : Sim) : Sim :=
  { s with world := { s.world with activate_calls := s.world.activate_calls + 1 } }

/-- The empty hook `BadGuy::deactivate`; the call is recorded. -/
def deactivate (s : Sim) : Sim :=
  { s with world := { s.world with deactivate_calls := s.world.deactivate_calls + 1 } }

/-- The call `BadGuy::try_activate`. -/
def try_activate (env : Env) (s : Sim) : Sim :=
  match env.get_nearest_player s.bg.m_bbox with
  | none => s
  | some _ =>
    if !is_offscreen env s.bg then
      let s1 : Sim := { s with bg := set_state env State.STATE_ACTIVE s.bg }
      let s2 : Sim :=
        if !s1.bg.m_is_initialized then
          let b2 : BadGuy :=
            if s1.bg.m_start_dir = Direction.AUTO then
              match env.get_nearest_player s1.bg.m_bbox with
              | some player_ =>
                if s1.bg.m_bbox.p2.x < player_.get_bbox.p1.x then
                  { s1.bg with m_dir := Direction.RIGHT }
                else { s1.bg with m_dir := Direction.LEFT }
              | none => { s1.bg with m_dir := Direction.LEFT }
            else s1.bg
          let s3 := init_hook { s1 with bg := b2 }
          { s3 with bg := { s3.bg with m_is_initialized := true } }
        else s1
      activate s2
    else s

/-- The call `BadGuy::update_on_ground_flag`. -/
def update_on_ground_flag (hit : CollisionHit) (b : BadGuy) : BadGuy :=
  if hit.bottom then { b with m_on_ground_flag := true, m_floor_normal := hit.slope_normal }
  else b

/-- The call `BadGuy::collision_solid`. -/
def collision_solid (hit : CollisionHit) (b : BadGuy) : BadGuy :=
  let b1 : BadGuy := { b with m_physic := b.m_physic.set_velocity_x 0 }
  let b2 : BadGuy := { b1 with m_physic := b1.m_physic.set_velocity_y 0 }
  update_on_ground_flag hit b2

/-- The positions `0, 16, 32, ...` below `limit` visited by the loops of `kill_fall`. -/
def ice_piece_steps (limit : ℚ) : List ℚ :=
  (List.range (⌈limit / 16⌉).toNat).map (fun (k : ℕ) => 16 * (k : ℚ))

/-- The ice pieces spawned by `kill_fall` for a frozen badguy (outer loop on `x`). -/
def ice_pieces (env : Env) (bbox : Rectf) : List SpriteParticle :=
  let cx := bbox.get_width / 2
  let cy := bbox.get_height / 2
  (ice_piece_steps bbox.get_width).flatMap (fun px =>
    (ice_piece_steps bbox.get_height).map (fun py =>
      { sprite := "images/particles/ice_piece1.sprite", action := "default",
        pos := ⟨bbox.p1.x + px, bbox.p1.y + py⟩,
        speed := ⟨(px - cx) * 8, (py - cy) * 8 + 100⟩,
        acceleration := ⟨0, env.gravity * 100⟩ }))

/-- The call `BadGuy::kill_fall`. -/
def kill_fall (env : Env) (s : Sim) : Sim :=
  if !s.bg.is_active then s
  else if s.bg.m_frozen then
    let s1 := s.play "sounds/brick.wav"
    let s2 := s1.add_particles (ice_pieces env s1.bg.m_bbox)
    let s3 := run_dead_script s2
    { s3 with bg := s3.bg.remove_me }
  else
    let s1 := s.play "sounds/fall.wav"
    let b1 : BadGuy := { s1.bg with m_physic := s1.bg.m_physic.set_velocity_y 0 }
    let b2 : BadGuy := { b1 with m_physic := b1.m_physic.set_acceleration_y 0 }
    let b3 : BadGuy := { b2 with m_physic := b2.m_physic.enable_gravity true }
    let b4 := set_state env State.STATE_FALLING b3
    let b5 : BadGuy := { b4 with m_layer := env.foremost_layer + 1 }
    run_dead_script { s1 with bg := b5 }

/-- The call `BadGuy::kill_squished`. -/
def kill_squished (env : Env) (object : GameObject) (s : Sim) : Sim :=
  if !s.bg.is_active then s
  else
    let s1 := s.play "sounds/squish.wav"
    let b1 : BadGuy := { s1.bg with m_physic := s1.bg.m_physic.enable_gravity true }
    let b2 : BadGuy := { b1 with m_physic := b1.m_physic.set_velocity_x 0 }
    let b3 : BadGuy := { b2 with m_physic := b2.m_physic.set_velocity_y 0 }
    let b4 := set_state env State.STATE_SQUISHED b3
    let b5 := b4.set_group CollisionGroup.COLGROUP_MOVING_ONLY_STATIC
    let s2 : Sim := { s1 with bg := b5 }
    let s3 : Sim :=
      match object with
      | GameObject.player _ => s2.player_bounce
      | _ => s2
    run_dead_script s3

/-- The call `BadGuy::freeze`. -/
def freeze (b : BadGuy) : BadGuy :=
  let b1 := b.set_group CollisionGroup.COLGROUP_MOVING_STATIC
  let b2 : BadGuy := { b1 with m_frozen := true }
  if b2.m_sprite.has_action "iced-left" then
    let name := if b2.m_dir = Direction.LEFT then "iced-left" else "iced-right"
    { b2 with m_sprite := b2.m_sprite.set_action name 1 }
  else if b2.m_sprite.has_action "iced" then
    { b2 with m_sprite := b2.m_sprite.set_action "iced" 1 }
  else
    { b2 with m_sprite := (b2.m_sprite.set_color (3 / 5, 18 / 25, 22 / 25)).stop_animation }

/-- The call `BadGuy::unfreeze`. -/
def unfreeze (b : BadGuy) : BadGuy :=
  let b1 := b.set_group b.m_colgroup_active
  let b2 : BadGuy := { b1 with m_frozen := false }
  if (!b2.m_sprite.has_action "iced-left") && (!b2.m_sprite.has_action "iced") then
    { b2 with m_sprite := (b2.m_sprite.set_color (1, 1, 1)).set_animation_loops }
  else b2

/-- The empty hook `BadGuy::extinguish`. -/
def extinguish (s : Sim) : Sim := s

/-- The call `BadGuy::ignite`. -/
def ignite (env : Env) (s : Sim) : Sim :=
  if !s.bg.is_flammable || s.bg.m_ignited then s
  else
    let b1 : BadGuy := { s.bg with m_physic := s.bg.m_physic.enable_gravity true }
    let b2 : BadGuy := { b1 with m_physic := b1.m_physic.set_velocity_x 0 }
    let b3 : BadGuy := { b2 with m_physic := b2.m_physic.set_velocity_y 0 }
    let b4 := b3.set_group CollisionGroup.COLGROUP_MOVING_ONLY_STATIC
    let b5 : BadGuy := { b4 with m_sprite := b4.m_sprite.stop_animation }
    let b6 : BadGuy := { b5 with m_ignited := true }
    let s6 : Sim := { s with bg := b6 }
    if b6.m_sprite.has_action "melting-left" then
      let s7 : Sim :=
        if b6.m_sprite.has_action "ground-melting-left" && b6.on_ground then
          let name :=
            if b6.m_dir = Direction.LEFT then "ground-melting-left" else "ground-melting-right"
          let b7 : BadGuy := { b6 with m_sprite := b6.m_sprite.set_action name 1 }
          let s8 := ({ s6 with bg := b7 } : Sim).play "sounds/splash.ogg"
          { s8 with bg := set_state env State.STATE_GROUND_MELTING s8.bg }
        else
          let name := if b6.m_dir = Direction.LEFT then "melting-left" else "melting-right"
          let b7 : BadGuy := { b6 with m_sprite := b6.m_sprite.set_action name 1 }
          let s8 := ({ s6 with bg := b7 } : Sim).play "sounds/sizzle.ogg"
          { s8 with bg := set_state env State.STATE_MELTING s8.bg }
      run_dead_script s7
    else if b6.m_sprite.has_action "burning-left" then
      let b7 : BadGuy := { b6 with m_glowing := true }
      let s8 := ({ s6 with bg := b7 } : Sim).play "sounds/fire.ogg"
      let name := if s8.bg.m_dir = Direction.LEFT then "burning-left" else "burning-right"
      let b9 : BadGuy := { s8.bg with m_sprite := s8.bg.m_sprite.set_action name 1 }
      run_dead_script { s8 with bg := set_state env State.STATE_BURNING b9 }
    else if b6.m_sprite.has_action "inside-melting-left" then
      let s8 := s6.play "sounds/splash.ogg"
      let name :=
        if s8.bg.m_dir = Direction.LEFT then "inside-melting-left" else "inside-melting-right"
      let b9 : BadGuy := { s8.bg with m_sprite := s8.bg.m_sprite.set_action name 1 }
      run_dead_script { s8 with bg := set_state env State.STATE_INSIDE_MELTING b9 }
    else
      kill_fall env s6

/-- The call `BadGuy::collision_player`. -/
def collision_player (env : Env) (player : Player) (s : Sim) : HitResponse × Sim :=
  if player.is_invincible then (HitResponse.ABORT_MOVE, kill_fall env s)
  else if s.bg.m_frozen then (HitResponse.FORCE_MOVE, s)
  else (HitResponse.FORCE_MOVE, s.player_kill)

/-- The call `BadGuy::collision_badguy`. -/
def collision_badguy (s : Sim) : HitResponse × Sim := (HitResponse.FORCE_MOVE, s)

/-- The call `BadGuy::collision_squished`. -/
def collision_squished (env : Env) (object : GameObject) (s : Sim) : Bool × Sim :=
  if s.bg.m_frozen then
    match object with
    | GameObject.player player =>
      if player.m_does_buttjump then (true, kill_fall env s.player_bounce)
      else (false, s)
    | _ => (false, s)
  else (false, s)

/-- The call `BadGuy::collision_bullet`. -/
def collision_bullet (env : Env) (bullet : Bullet) (s : Sim) : HitResponse × Sim :=
  if s.bg.is_frozen then
    if bullet.get_type = BonusType.FIRE_BONUS then
      (HitResponse.ABORT_MOVE, ({ s with bg := unfreeze s.bg } : Sim).bullet_remove_me)
    else
      (HitResponse.FORCE_MOVE, s.bullet_ricochet)
  else if s.bg.is_ignited then
    if bullet.get_type = BonusType.ICE_BONUS then
      (HitResponse.ABORT_MOVE, (extinguish s).bullet_remove_me)
    else
      (HitResponse.FORCE_MOVE, s.bullet_remove_me)
  else if bullet.get_type = BonusType.FIRE_BONUS ∧ s.bg.is_flammable = true then
    (HitResponse.ABORT_MOVE, (ignite env s).bullet_remove_me)
  else if bullet.get_type = BonusType.ICE_BONUS ∧ s.bg.is_freezable = true then
    (HitResponse.ABORT_MOVE, ({ s with bg := freeze s.bg } : Sim).bullet_remove_me)
  else
    (HitResponse.FORCE_MOVE, s.bullet_ricochet)

/-- The call `BadGuy::collision`. -/
def collision (env : Env) (other : GameObject) (hit : CollisionHit) (s : Sim) :
    HitResponse × Sim :=
  if !s.bg.is_active then (HitResponse.ABORT_MOVE, s)
  else
    match other with
    | GameObject.badguy active group =>
      if active = true ∧ group = CollisionGroup.COLGROUP_MOVING then collision_badguy s
      else (HitResponse.FORCE_MOVE, s)
    | GameObject.player player =>
      if player.get_bbox.p2.y < s.bg.m_bbox.p1.y + 16 then
        if player.is_stone then (HitResponse.FORCE_MOVE, kill_fall env s)
        else
          let r := collision_squished env (GameObject.player player) s
          if r.1 then (HitResponse.FORCE_MOVE, r.2)
          else if player.is_stone then
            (HitResponse.FORCE_MOVE, { r.2 with bg := collision_solid hit r.2.bg })
          else collision_player env player r.2
      else if player.is_stone then
        (HitResponse.FORCE_MOVE, { s with bg := collision_solid hit s.bg })
      else collision_player env player s
    | GameObject.bullet bullet => collision_bullet env bullet s
    | GameObject.something_else => (HitResponse.FORCE_MOVE, s)

/-- The call `BadGuy::collision_tile`; `tile_attributes` is the 32-bit attribute word. -/
def collision_tile (env : Env) (tile_attributes : Nat) (s : Sim) : Sim :=
  if !s.bg.is_active then s
  else
    let s1 : Sim :=
      if tile_attributes &&& Tile.WATER ≠ 0 ∧ s.bg.is_in_water = false then
        ({ s with bg := { s.bg with m_in_water := true } } : Sim).play "sounds/splash.ogg"
      else s
    let s2 : Sim :=
      if tile_attributes &&& Tile.WATER = 0 ∧ s1.bg.is_in_water = true then
        { s1 with bg := { s1.bg with m_in_water := false } }
      else s1
    if tile_attributes &&& Tile.HURTS ≠ 0 ∧ s2.bg.is_hurtable = true then
      if tile_attributes &&& Tile.FIRE ≠ 0 then
        if s2.bg.is_flammable then ignite env s2 else s2
      else if tile_attributes &&& Tile.ICE ≠ 0 then
        if s2.bg.is_freezable then { s2 with bg := freeze s2.bg } else s2
      else kill_fall env s2
    else s2

/-- The integration step `m_movement = m_physic.get_movement(elapsed_time)`. -/
def apply_movement (env : Env) (elapsed_time : ℚ) (b : BadGuy) : BadGuy :=
  let r := b.m_physic.get_movement env.gravity elapsed_time
  { b with m_movement := r.1, m_physic := r.2 }

/-- The call `BadGuy::active_update`. -/
def active_update (env : Env) (elapsed_time : ℚ) (s : Sim) : Sim :=
  let b1 := apply_movement env elapsed_time s.bg
  if b1.m_frozen then { s with bg := { b1 with m_sprite := b1.m_sprite.stop_animation } }
  else { s with bg := b1 }

/-- The empty hook `BadGuy::inactive_update`. -/
def inactive_update (_elapsed_time : ℚ) (s : Sim) : Sim := s

/-- Modelled from the spec: the default answer of the virtual `get_water_sprite`, declared in
`badguy.hpp`, which is not part of the excerpt. -/
def get_water_sprite : String := "images/objects/water_drop/water_drop.sprite"

/-- The call `BadGuy::update`. -/
def update (env : Env) (elapsed_time : ℚ) (s : Sim) : Sim :=
  if !env.inside s.bg.m_bbox then
    let s1 := run_dead_script s
    let b1 : BadGuy := { s1.bg with m_is_active_flag := false }
    { s1 with bg := b1.remove_me }
  else
    let s1 : Sim :=
      if s.bg.m_state ≠ State.STATE_INACTIVE ∧ is_offscreen env s.bg = true then
        let s0 := if s.bg.m_state = State.STATE_ACTIVE then deactivate s else s
        { s0 with bg := set_state env State.STATE_INACTIVE s0.bg }
      else s
    let s2 : Sim :=
      match s1.bg.m_state with
      | State.STATE_ACTIVE =>
        let s3 : Sim := { s1 with bg := { s1.bg with m_is_active_flag := true } }
        if env.editor_active then s3 else active_update env elapsed_time s3
      | State.STATE_INIT | State.STATE_INACTIVE =>
        let s3 : Sim := { s1 with bg := { s1.bg with m_is_active_flag := false } }
        try_activate env (inactive_update elapsed_time s3)
      | State.STATE_BURNING =>
        let b3 : BadGuy := { s1.bg with m_is_active_flag := false }
        let b4 := apply_movement env elapsed_time b3
        if env.animation_done then { s1 with bg := b4.remove_me } else { s1 with bg := b4 }
      | State.STATE_GEAR | State.STATE_SQUISHED =>
        let b3 : BadGuy := { s1.bg with m_is_active_flag := false }
        let c := b3.m_state_timer.check env.game_time
        let b4 : BadGuy := { b3 with m_state_timer := c.2 }
        if c.1 then { s1 with bg := b4.remove_me }
        else { s1 with bg := apply_movement env elapsed_time b4 }
      | State.STATE_MELTING =>
        let b3 : BadGuy := { s1.bg with m_is_active_flag := false }
        let b4 := apply_movement env elapsed_time b3
        if env.animation_done || b4.on_ground then
          { bg := b4.remove_me,
            world := { s1.world with
              water_drops := s1.world.water_drops ++ [(b4.m_bbox.p1, b4.m_physic.get_velocity)] } }
        else { s1 with bg := b4 }
      | State.STATE_GROUND_MELTING =>
        let b3 : BadGuy := { s1.bg with m_is_active_flag := false }
        let b4 := apply_movement env elapsed_time b3
        if env.animation_done then { s1 with bg := b4.remove_me } else { s1 with bg := b4 }
      | State.STATE_INSIDE_MELTING =>
        let b3 : BadGuy := { s1.bg with m_is_active_flag := false }
        let b4 := apply_movement env elapsed_time b3
        let b5 : BadGuy :=
          if b4.on_ground && env.animation_done then
            let name := if b4.m_dir = Direction.LEFT then "gear-left" else "gear-right"
            set_state env State.STATE_GEAR { b4 with m_sprite := b4.m_sprite.set_action name 1 }
          else b4
        ({ s1 with bg := b5 } : Sim).add_particles
          [{ sprite := get_water_sprite, action := "particle_" ++ toString env.rand_pa,
             pos := ⟨env.rand_px, env.rand_py⟩, speed := ⟨0, 0⟩,
             acceleration := ⟨0, 100 * env.gravity⟩ }]
      | State.STATE_FALLING =>
        let b3 : BadGuy := { s1.bg with m_is_active_flag := false }
        { s1 with bg := apply_movement env elapsed_time b3 }
    { s2 with bg := { s2.bg with m_on_ground_flag := false } }

/-- The call `BadGuy::str2dir`; the warning logged for an unknown string is not modelled. -/
def str2dir (dir_str : String) : Direction :=
  if dir_str = "auto" then Direction.AUTO
  else if dir_str = "left" then Direction.LEFT
  else if dir_str = "right" then Direction.RIGHT
  else Direction.AUTO

/-- The members as both constructors initialise them, before the direction is settled.
The bounding box, sprite and layer come from the `MovingSprite` base; a default `Physic`
has gravity enabled with modifier one. -/
def BadGuy.initial (bbox : Rectf) (sprite : Sprite) (layer_ : Int)
    (flammable freezable hurtable : Bool) : BadGuy :=
  { m_bbox := bbox, m_movement := ⟨0, 0⟩, m_group := CollisionGroup.COLGROUP_DISABLED,
    m_layer := layer_, removed := false, m_sprite := sprite,
    m_physic := ⟨0, 0, 0, 0, true, 1⟩, m_countMe := true, m_is_initialized := false,
    m_start_position := bbox.p1, m_dir := Direction.LEFT, m_start_dir := Direction.AUTO,
    m_frozen := false, m_ignited := false, m_in_water := false, m_dead_script := "",
    m_glowing := false, m_state := State.STATE_INIT, m_is_active_flag := false,
    m_state_timer := ⟨0, 0⟩, m_on_ground_flag := false, m_floor_normal := ⟨0, 0⟩,
    m_colgroup_active := CollisionGroup.COLGROUP_MOVING, m_parent_dispenser := false,
    flammable := flammable, freezable := freezable, hurtable := hurtable }

/-- The constructor `BadGuy(pos, direction, sprite_name, layer, light_sprite_name)`. -/
def BadGuy.create (bbox : Rectf) (direction : Direction) (sprite : Sprite) (layer_ : Int)
    (flammable freezable hurtable : Bool) : BadGuy :=
  let b0 := BadGuy.initial bbox sprite layer_ flammable freezable hurtable
  let b1 : BadGuy := { b0 with m_dir := direction, m_start_dir := direction }
  { b1 with m_dir := if b1.m_start_dir = Direction.AUTO then Direction.LEFT else b1.m_start_dir }

/-- The constructor `BadGuy(reader, sprite_name, layer, light_sprite_name)`; the two
optional properties `direction` and `dead-script` are what the reader holds. -/
def BadGuy.from_reader (direction_prop dead_script_prop : Option String) (bbox : Rectf)
    (sprite : Sprite) (layer_ : Int) (flammable freezable hurtable : Bool) : BadGuy :=
  let b0 := BadGuy.initial bbox sprite layer_ flammable freezable hurtable
  let dir_str : String := direction_prop.getD "auto"
  let b1 : BadGuy := { b0 with m_start_dir := str2dir dir_str }
  let b2 : BadGuy := { b1 with m_dir := b1.m_start_dir }
  let b3 : BadGuy := { b2 with m_dead_script := dead_script_prop.getD b2.m_dead_script }
  { b3 with m_dir := if b3.m_start_dir = Direction.AUTO then Direction.LEFT else b3.m_start_dir }

/-! ## Specification vocabulary -/

/-- The death bookkeeping is untouched between `s` and `t`: counted flag, spawner link,
script name, kill counter, spawner notifications and script requests are the same. -/
def DeathFrame (s t : Sim) : Prop :=
  t.bg.m_countMe = s.bg.m_countMe ∧ t.bg.m_parent_dispenser = s.bg.m_parent_dispenser ∧
  t.bg.m_dead_script = s.bg.m_dead_script ∧ t.world.m_badguys = s.world.m_badguys ∧
  t.world.notify_dead_calls = s.world.notify_dead_calls ∧
  t.world.scripts_run = s.world.scripts_run

/-- Between `s` and `t` the death notification ran exactly once: the counter rose by one
if the badguy was counted, the counted flag is cleared, the spawner (if any) was notified
once and the script (if any) was requested once. -/
def DeathOnce (s t : Sim) : Prop :=
  t.bg.m_countMe = false ∧ t.bg.m_parent_dispenser = s.bg.m_parent_dispenser ∧
  t.bg.m_dead_script = s.bg.m_dead_script ∧
  t.world.m_badguys = s.world.m_badguys + (if s.bg.m_countMe then 1 else 0) ∧
  t.world.notify_dead_calls =
    s.world.notify_dead_calls + (if s.bg.m_parent_dispenser then 1 else 0) ∧
  t.world.scripts_run =
    s.world.scripts_run ++ (if s.bg.m_dead_script ≠ "" then [s.bg.m_dead_script] else [])

instance (s t : Sim) : Decidable (DeathFrame s t) := by
  unfold DeathFrame
  infer_instance

instance (s t : Sim) : Decidable (DeathOnce s t) := by
  unfold DeathOnce
  infer_instance

/-- The lethal triggers of an entity. -/
inductive LethalTrigger
  | kill_fall
  | kill_squished (object : GameObject)
  | ignite
  | update_outside (elapsed_time : ℚ)

/-- Running one lethal trigger; an `update_outside` tick is a tick of `update` in which the
sector reports the bounding box as not inside. -/
def run_trigger (env : Env) : LethalTrigger → Sim → Sim
  | LethalTrigger.kill_fall, s => kill_fall env s
  | LethalTrigger.kill_squished object, s => kill_squished env object s
  | LethalTrigger.ignite, s => ignite env s
  | LethalTrigger.update_outside elapsed_time, s =>
    update { env with inside := fun _ => false } elapsed_time s

/-- Running a finite sequence of lethal triggers, each in its own environment. -/
def run_triggers : List (Env × LethalTrigger) → Sim → Sim
  | [], s => s
  | (env, t) :: rest, s => run_triggers rest (run_trigger env t s)

/-- The kill counter plus one if the badguy is still to be counted: no trigger raises it. -/
def kill_potential (s : Sim) : Int := s.world.m_badguys + (if s.bg.m_countMe then 1 else 0)

/-- The first-match-wins list of the specification for an active entity meeting a player,
written from its words; `from_above` is the outcome of the from-above test. -/
def player_response_spec (env : Env) (from_above : Bool) (player : Player) (hit : CollisionHit)
    (s : Sim) : HitResponse × Sim :=
  if from_above = true ∧ player.is_stone = true then
    (HitResponse.FORCE_MOVE, kill_fall env s)
  else if from_above = true ∧ s.bg.m_frozen = true ∧ player.m_does_buttjump = true then
    (HitResponse.FORCE_MOVE, kill_fall env s.player_bounce)
  else if player.is_stone = true then
    (HitResponse.FORCE_MOVE, { s with bg := collision_solid hit s.bg })
  else if player.is_invincible = true then
    (HitResponse.ABORT_MOVE, kill_fall env s)
  else if s.bg.m_frozen = true then
    (HitResponse.FORCE_MOVE, s)
  else
    (HitResponse.FORCE_MOVE, s.player_kill)

/-- One simulation tick as the badguy sees it: the collision pass of the sector has left
the bounding box at `bbox`, then `update` runs in environment `env`. -/
structure Tick where
  env : Env
  elapsed_time : ℚ
  bbox : Rectf

def run_tick (t : Tick) (s : Sim) : Sim :=
  update t.env t.elapsed_time { s with bg := { s.bg with m_bbox := t.bbox } }

def run_ticks : List Tick → Sim → Sim
  | [], s => s
  | t :: rest, s => run_ticks rest (run_tick t s)

/-- The tick finds the badguy inside the sector and not off-screen. -/
def tick_visible (t : Tick) (s : Sim) : Bool :=
  t.env.inside t.bbox && !is_offscreen t.env { s.bg with m_bbox := t.bbox }

/-- Every tick of the sequence finds the badguy inside the sector and on screen, at a game
time before `deadline`. -/
def ticks_visible_before (deadline : ℚ) : List Tick → Sim → Bool
  | [], _ => true
  | t :: rest, s =>
    tick_visible t s && decide (t.env.game_time < deadline) &&
      ticks_visible_before deadline rest (run_tick t s)

/-- What `ignite` does to the badguy before it chooses a visual: gravity on, velocity
zeroed, collision group narrowed, animation stopped, ignited set. -/
def ignite_prologue (b : BadGuy) : BadGuy :=
  { b with
    m_physic := ((b.m_physic.enable_gravity true).set_velocity_x 0).set_velocity_y 0,
    m_group := CollisionGroup.COLGROUP_MOVING_ONLY_STATIC,
    m_sprite := b.m_sprite.stop_animation,
    m_ignited := true }

/-- The culling step of `update`: a badguy that is not Inactive and is off-screen is
deactivated and set Inactive. -/
def update_cull (env : Env) (s : Sim) : Sim :=
  if s.bg.m_state ≠ State.STATE_INACTIVE ∧ is_offscreen env s.bg = true then
    let s0 := if s.bg.m_state = State.STATE_ACTIVE then deactivate s else s
    { s0 with bg := set_state env State.STATE_INACTIVE s0.bg }
  else s

/-- The `switch` of `update`, dispatched on the state left by the culling step. -/
def update_switch (env : Env) (elapsed_time : ℚ) (s1 : Sim) : Sim :=
  match s1.bg.m_state with
  | State.STATE_ACTIVE =>
    let s3 : Sim := { s1 with bg := { s1.bg with m_is_active_flag := true } }
    if env.editor_active then s3 else active_update env elapsed_time s3
  | State.STATE_INIT | State.STATE_INACTIVE =>
    let s3 : Sim := { s1 with bg := { s1.bg with m_is_active_flag := false } }
    try_activate env (inactive_update elapsed_time s3)
  | State.STATE_BURNING =>
    let b3 : BadGuy := { s1.bg with m_is_active_flag := false }
    let b4 := apply_movement env elapsed_time b3
    if env.animation_done then { s1 with bg := b4.remove_me } else { s1 with bg := b4 }
  | State.STATE_GEAR | State.STATE_SQUISHED =>
    let b3 : BadGuy := { s1.bg with m_is_active_flag := false }
    let c := b3.m_state_timer.check env.game_time
    let b4 : BadGuy := { b3 with m_state_timer := c.2 }
    if c.1 then { s1 with bg := b4.remove_me }
    else { s1 with bg := apply_movement env elapsed_time b4 }
  | State.STATE_MELTING =>
    let b3 : BadGuy := { s1.bg with m_is_active_flag := false }
    let b4 := apply_movement env elapsed_time b3
    if env.animation_done || b4.on_ground then
      { bg := b4.remove_me,
        world := { s1.world with
          water_drops := s1.world.water_drops ++ [(b4.m_bbox.p1, b4.m_physic.get_velocity)] } }
    else { s1 with bg := b4 }
  | State.STATE_GROUND_MELTING =>
    let b3 : BadGuy := { s1.bg with m_is_active_flag := false }
    let b4 := apply_movement env elapsed_time b3
    if env.animation_done then { s1 with bg := b4.remove_me } else { s1 with bg := b4 }
  | State.STATE_INSIDE_MELTING =>
    let b3 : BadGuy := { s1.bg with m_is_active_flag := false }
    let b4 := apply_movement env elapsed_time b3
    let b5 : BadGuy :=
      if b4.on_ground && env.animation_done then
        let name := if b4.m_dir = Direction.LEFT then "gear-left" else "gear-right"
        set_state env State.STATE_GEAR { b4 with m_sprite := b4.m_sprite.set_action name 1 }
      else b4
    ({ s1 with bg := b5 } : Sim).add_particles
      [{ sprite := get_water_sprite, action := "particle_" ++ toString env.rand_pa,
         pos := ⟨env.rand_px, env.rand_py⟩, speed := ⟨0, 0⟩,
         acceleration := ⟨0, 100 * env.gravity⟩ }]
  | State.STATE_FALLING =>
    let b3 : BadGuy := { s1.bg with m_is_active_flag := false }
    { s1 with bg := apply_movement env elapsed_time b3 }

/-- The operations that the sector, other objects and the core itself perform on a
badguy; `move` is the collision pass of the sector placing the bounding box. -/
inductive Op
  | update (env : Env) (elapsed_time : ℚ)
  | move (bbox : Rectf)
  | collision (env : Env) (other : GameObject) (hit : CollisionHit)
  | collision_tile (env : Env) (tile_attributes : Nat)
  | collision_bullet (env : Env) (bullet : Bullet)
  | kill_fall (env : Env)
  | kill_squished (env : Env) (object : GameObject)
  | freeze
  | unfreeze
  | ignite (env : Env)
  | set_state (env : Env) (state_ : State)

def run_op : Op → Sim → Sim
  | Op.update env elapsed_time, s => update env elapsed_time s
  | Op.move bbox, s => { s with bg := { s.bg with m_bbox := bbox } }
  | Op.collision env other hit, s => (collision env other hit s).2
  | Op.collision_tile env tile_attributes, s => collision_tile env tile_attributes s
  | Op.collision_bullet env bullet, s => (collision_bullet env bullet s).2
  | Op.kill_fall env, s => kill_fall env s
  | Op.kill_squished env object, s => kill_squished env object s
  | Op.freeze, s => { s with bg := freeze s.bg }
  | Op.unfreeze, s => { s with bg := unfreeze s.bg }
  | Op.ignite env, s => ignite env s
  | Op.set_state env state_, s => { s with bg := set_state env state_ s.bg }

def run_ops : List Op → Sim → Sim
  | [], s => s
  | op :: rest, s => run_ops rest (run_op op s)

/-- The operation is one the core performs: `set_state` is never called with Init. -/
def Op.by_core : Op → Bool
  | Op.set_state _ State.STATE_INIT => false
  | _ => true

/-- What a tile does to the water flag, in the words of the specification: entering water
sets the flag with a splash, leaving water clears it, anything else changes nothing. -/
def tile_water_spec (tile_attributes : Nat) (s : Sim) : Sim :=
  if tile_attributes &&& Tile.WATER ≠ 0 ∧ s.bg.m_in_water = false then
    ({ s with bg := { s.bg with m_in_water := true } } : Sim).play "sounds/splash.ogg"
  else if tile_attributes &&& Tile.WATER = 0 ∧ s.bg.m_in_water = true then
    { s with bg := { s.bg with m_in_water := false } }
  else s

/-- The effect of a hurting tile on an active, hurtable badguy as the code orders it: a
tile flagged fire ignites a flammable badguy and does nothing to any other; a tile not
flagged fire but flagged ice freezes a freezable badguy and does nothing to any other; a
tile flagged neither fall-kills. -/
def tile_hurt_spec (env : Env) (tile_attributes : Nat) (s : Sim) : Sim :=
  match decide (tile_attributes &&& Tile.FIRE ≠ 0), decide (tile_attributes &&& Tile.ICE ≠ 0) with
  | true, _ => if s.bg.flammable then ignite env s else s
  | false, true => if s.bg.freezable then { s with bg := freeze s.bg } else s
  | false, false => kill_fall env s

/-- Between `s` and `t` the first-time initialisation is untouched: the initialised flag and
the number of `initialize()` calls are the same, and `t` is Active only if `s` was. -/
def InitKept (s t : Sim) : Prop :=
  t.bg.m_is_initialized = s.bg.m_is_initialized ∧
  t.world.init_hook_calls = s.world.init_hook_calls ∧
  (t.bg.m_state = State.STATE_ACTIVE → s.bg.m_state = State.STATE_ACTIVE)

/-- Between `s` and `t` the badguy was activated from Init or Inactive: it is now Active and
initialised, and `initialize()` was called once if it had not been initialised before and
not at all otherwise. -/
def Activated (s t : Sim) : Prop :=
  (s.bg.m_state = State.STATE_INIT ∨ s.bg.m_state = State.STATE_INACTIVE) ∧
  t.bg.m_state = State.STATE_ACTIVE ∧ t.bg.m_is_initialized = true ∧
  t.world.init_hook_calls = s.world.init_hook_calls + (if s.bg.m_is_initialized then 0 else 1)

/-- The dying states: Falling, Squished, Gear, Burning, Melting, GroundMelting and
InsideMelting. -/
def State.dying : State → Bool
  | State.STATE_FALLING => true
  | State.STATE_SQUISHED => true
  | State.STATE_GEAR => true
  | State.STATE_BURNING => true
  | State.STATE_MELTING => true
  | State.STATE_GROUND_MELTING => true
  | State.STATE_INSIDE_MELTING => true
  | _ => false

/-- Between `s` and `t` the active flag is untouched and the state is either the same or a
dying state. -/
def FlagKept (s t : Sim) : Prop :=
  t.bg.m_is_active_flag = s.bg.m_is_active_flag ∧
  (t.bg.m_state = s.bg.m_state ∨ t.bg.m_state.dying = true)

/-- The operation is a call from outside: `set_state` itself is only called from inside the
other operations. -/
def Op.external : Op → Bool
  | Op.set_state _ _ => false
  | _ => true

/-- A badguy whose active flag is set is neither in state Init nor in state Inactive. -/
def active_flag_sound (s : Sim) : Prop :=
  s.bg.m_is_active_flag = true →
    s.bg.m_state ≠ State.STATE_INIT ∧ s.bg.m_state ≠ State.STATE_INACTIVE

/-- The badguy is marked removed, or is Falling or Squished. -/
def doomed (s : Sim) : Prop :=
  s.bg.removed = true ∨ s.bg.m_state = State.STATE_FALLING ∨
    s.bg.m_state = State.STATE_SQUISHED

/-! ## Sample data -/

def demo_sprite : Sprite := ⟨[], "left", -1, (1, 1, 1)⟩

def demo_world : World := ⟨0, 0, [], [], [], [], 0, 0, 0, 0, 0, 0, 0⟩

def demo_player : Player := ⟨⟨⟨0, -32⟩, ⟨32, 0⟩⟩, false, false, false⟩

def demo_env : Env :=
  { inside := fun _ => true, get_nearest_player := fun _ => some demo_player,
    editor_active := false, camera_center := ⟨0, 0⟩, game_time := 0, gravity := 10,
    foremost_layer := 100, animation_done := false, rand_pa := 0, rand_px := 0, rand_py := 0 }

/-- A freshly constructed badguy occupying the box from (0,0) to (32,32). -/
def demo_badguy : BadGuy :=
  BadGuy.create ⟨⟨0, 0⟩, ⟨32, 32⟩⟩ Direction.LEFT demo_sprite 50 true false true

/-- The sample badguy after a tick made it active, spawned by a dispenser and carrying a
death script. -/
def demo_active : Sim :=
  { bg := { demo_badguy with m_state := State.STATE_ACTIVE, m_is_active_flag := true,
                             m_group := CollisionGroup.COLGROUP_MOVING,
                             m_is_initialized := true, m_parent_dispenser := true,
                             m_dead_script := "on_death();" },
    world := demo_world }

/-- The sample environment with a sector that reports every box as outside. -/
def demo_env_outside : Env := { demo_env with inside := fun _ => false }

/-- A hit from the top side only. -/
def demo_hit : CollisionHit := ⟨false, false, true, false, false, ⟨0, 0⟩⟩

/-- The sample badguy, active and standing on the ground, whose sprite has a ground-melting
and a burning visual but no melting visual. -/
def demo_burnable : Sim :=
  { demo_active with bg := { demo_active.bg with
      m_on_ground_flag := true,
      m_sprite := { demo_sprite with actions := ["ground-melting-left", "burning-left"] } } }

/-- The sample badguy, active and standing on the ground, whose sprite has the melting and
the ground-melting visuals. -/
def demo_meltable : Sim :=
  { demo_active with bg := { demo_active.bg with
      m_on_ground_flag := true,
      m_sprite := { demo_sprite with actions := ["melting-left", "ground-melting-left"] } } }

/-- A tick two seconds into the game that finds the badguy in the sector and on screen. -/
def demo_tick_late : Tick :=
  { env := { demo_env with game_time := 2 }, elapsed_time := 1 / 100,
    bbox := ⟨⟨0, 0⟩, ⟨32, 32⟩⟩ }

/-- A tick one second into the game that finds the badguy in the sector and on screen. -/
def demo_tick_early : Tick :=
  { env := { demo_env with game_time := 1 }, elapsed_time := 1 / 100,
    bbox := ⟨⟨0, 0⟩, ⟨32, 32⟩⟩ }

/-- The freshly constructed sample badguy, not yet active, spawned by a dispenser and
carrying a death script; its sprite has none of the ignition visuals. -/
def demo_spawned : Sim :=
  { bg := { demo_badguy with m_parent_dispenser := true, m_dead_script := "on_death();" },
    world := demo_world }

/-- The sample environment with the nearest player's box shifted `dx` units to the right of
the sample badguy's box, at the same height. -/
def demo_env_player_at (dx : ℚ) : Env :=
  { demo_env with
    get_nearest_player := fun _ => some ⟨⟨⟨dx, 0⟩, ⟨dx + 32, 32⟩⟩, false, false, false⟩ }

/-- A badguy read from a level file that gives neither a direction nor a death script, so
that its configured direction is Auto. -/
def demo_auto : Sim :=
  { bg := BadGuy.from_reader none none ⟨⟨0, 0⟩, ⟨32, 32⟩⟩ demo_sprite 50 true false true,
    world := demo_world }

/-- The sample environment in level-editor mode, the camera centred on the origin. -/
def demo_env_editor : Env := { demo_env with editor_active := true }

/-- A tick three seconds into the game on which the nearest player is 5000 units to the
right, so that the badguy is off-screen though inside the sector. -/
def demo_tick_far : Tick :=
  { env := { demo_env_player_at 5000 with game_time := 3 }, elapsed_time := 1 / 100,
    bbox := ⟨⟨0, 0⟩, ⟨32, 32⟩⟩ }

/-- A tick four seconds into the game that finds the badguy in the sector and on screen. -/
def demo_tick_back : Tick :=
  { env := { demo_env with game_time := 4 }, elapsed_time := 1 / 100,
    bbox := ⟨⟨0, 0⟩, ⟨32, 32⟩⟩ }

/-- The sample active badguy with a sprite that has the burning visuals only. -/
def demo_flammable : Sim :=
  { demo_active with bg := { demo_active.bg with
      m_sprite := { demo_sprite with actions := ["left", "right", "burning-left",
                                                 "burning-right"] } } }

/-! ## Basic facts -/

/-- The closed form used for the loops of `kill_fall` visits exactly the multiples of 16,
starting at 0, that are below the limit, as `for (x = 0; x < limit; x += 16)` does. -/
theorem ice_piece_steps_mem (limit x : ℚ) :
    x ∈ ice_piece_steps limit ↔ ∃ k : ℕ, x = 16 * (k : ℚ) ∧ x < limit := by
  unfold ice_piece_steps
  simp only [List.mem_map, List.mem_range]
  constructor
  · rintro ⟨k, hk, rfl⟩
    refine ⟨k, rfl, ?_⟩
    have h1 : (k : ℤ) < ⌈limit / 16⌉ := Int.lt_toNat.mp hk
    have h2 : ((k : ℤ) : ℚ) < limit / 16 := Int.lt_ceil.mp h1
    have h3 : (k : ℚ) < limit / 16 := by exact_mod_cast h2
    linarith
  · rintro ⟨k, rfl, hk⟩
    refine ⟨k, ?_, rfl⟩
    apply Int.lt_toNat.mpr
    apply Int.lt_ceil.mpr
    have h3 : (k : ℚ) < limit / 16 := by linarith
    exact_mod_cast h3

theorem run_dead_script_once (s : Sim) : DeathOnce s (run_dead_script s) := by
  unfold DeathOnce run_dead_script
  by_cases h1 : s.bg.m_countMe = true <;> by_cases h2 : s.bg.m_parent_dispenser = true <;>
    by_cases h3 : s.bg.m_dead_script = "" <;> simp [h1, h2, h3]

theorem set_state_death (env : Env) (st : State) (b : BadGuy) :
    (set_state env st b).m_countMe = b.m_countMe ∧
    (set_state env st b).m_parent_dispenser = b.m_parent_dispenser ∧
    (set_state env st b).m_dead_script = b.m_dead_script := by
  unfold set_state
  split
  · simp
  · cases st <;> simp [BadGuy.set_group, BadGuy.remove_me]
    split <;> simp

theorem DeathFrame.refl (s : Sim) : DeathFrame s s := by
  simp [DeathFrame]

theorem DeathFrame.trans {s t u : Sim} (h1 : DeathFrame s t) (h2 : DeathFrame t u) :
    DeathFrame s u := by
  obtain ⟨sc, sd, ss, sk, sn, sr⟩ := h1
  obtain ⟨tc, td, ts, tk, tn, tr⟩ := h2
  exact ⟨tc.trans sc, td.trans sd, ts.trans ss, tk.trans sk, tn.trans sn, tr.trans sr⟩

theorem DeathOnce.of_frame {s t : Sim} (h : DeathFrame s t) : DeathOnce s (run_dead_script t) := by
  have h2 := run_dead_script_once t
  obtain ⟨sc, sd, ss, sk, sn, sr⟩ := h
  obtain ⟨tc, td, ts, tk, tn, tr⟩ := h2
  refine ⟨tc, td.trans sd, ts.trans ss, ?_, ?_, ?_⟩
  · rw [tk, sk, sc]
  · rw [tn, sn, sd]
  · rw [tr, sr, ss]

theorem DeathOnce.then_frame {s t u : Sim} (h1 : DeathOnce s t) (h2 : DeathFrame t u) :
    DeathOnce s u := by
  obtain ⟨sc, sd, ss, sk, sn, sr⟩ := h1
  obtain ⟨tc, td, ts, tk, tn, tr⟩ := h2
  exact ⟨tc.trans sc, td.trans sd, ts.trans ss, tk.trans sk, tn.trans sn, tr.trans sr⟩

theorem DeathFrame.then_once {s t u : Sim} (h1 : DeathFrame s t) (h2 : DeathOnce t u) :
    DeathOnce s u := by
  obtain ⟨sc, sd, ss, sk, sn, sr⟩ := h1
  obtain ⟨tc, td, ts, tk, tn, tr⟩ := h2
  exact ⟨tc, td.trans sd, ts.trans ss, by rw [tk, sk, sc], by rw [tn, sn, sd],
    by rw [tr, sr, ss]⟩

theorem DeathOnce.remove_me {s t : Sim} (h : DeathOnce s t) :
    DeathOnce s { t with bg := t.bg.remove_me } := h

theorem kill_fall_death (env : Env) (s : Sim) :
    DeathFrame s (kill_fall env s) ∨ DeathOnce s (kill_fall env s) := by
  have h := set_state_death env
  unfold kill_fall
  split
  · left; exact DeathFrame.refl s
  · right
    split
    · dsimp only
      exact DeathOnce.remove_me
        (DeathOnce.of_frame (by simp [DeathFrame, Sim.play, Sim.add_particles]))
    · dsimp only
      apply DeathOnce.of_frame
      simp [DeathFrame, Sim.play, h]

theorem kill_squished_death (env : Env) (object : GameObject) (s : Sim) :
    DeathFrame s (kill_squished env object s) ∨ DeathOnce s (kill_squished env object s) := by
  have h := set_state_death env
  unfold kill_squished
  split
  · left; exact DeathFrame.refl s
  · right
    dsimp only
    apply DeathOnce.of_frame
    cases object <;> simp [DeathFrame, Sim.play, Sim.player_bounce, BadGuy.set_group, h]

theorem ignite_death (env : Env) (s : Sim) :
    DeathFrame s (ignite env s) ∨ DeathOnce s (ignite env s) := by
  have h := set_state_death env
  unfold ignite
  split
  · left; exact DeathFrame.refl s
  · dsimp only
    split
    · right
      apply DeathOnce.of_frame
      split <;> simp [DeathFrame, Sim.play, BadGuy.set_group, h]
    · split
      · right
        apply DeathOnce.of_frame
        simp [DeathFrame, Sim.play, BadGuy.set_group, h]
      · split
        · right
          apply DeathOnce.of_frame
          simp [DeathFrame, Sim.play, BadGuy.set_group, h]
        · have key : ∀ t, DeathFrame s t →
              (DeathFrame s (kill_fall env t) ∨ DeathOnce s (kill_fall env t)) :=
            fun t ht => (kill_fall_death env t).imp (DeathFrame.trans ht) (DeathFrame.then_once ht)
          apply key
          simp [DeathFrame, BadGuy.set_group]

theorem update_outside_death (env : Env) (elapsed_time : ℚ) (s : Sim)
    (hout : env.inside s.bg.m_bbox = false) : DeathOnce s (update env elapsed_time s) := by
  unfold update
  simp only [hout, Bool.not_false, if_true]
  exact DeathOnce.then_frame (run_dead_script_once s) (by simp [DeathFrame, BadGuy.remove_me])

theorem run_trigger_death (env : Env) (t : LethalTrigger) (s : Sim) :
    DeathFrame s (run_trigger env t s) ∨ DeathOnce s (run_trigger env t s) := by
  cases t with
  | kill_fall => exact kill_fall_death env s
  | kill_squished object => exact kill_squished_death env object s
  | ignite => exact ignite_death env s
  | update_outside elapsed_time => exact Or.inr (update_outside_death _ elapsed_time s rfl)

theorem run_trigger_bounds (env : Env) (t : LethalTrigger) (s : Sim) :
    s.world.m_badguys ≤ (run_trigger env t s).world.m_badguys ∧
    kill_potential (run_trigger env t s) ≤ kill_potential s ∧
    (run_trigger env t s).world.notify_dead_calls ≤ s.world.notify_dead_calls + 1 ∧
    (run_trigger env t s).world.scripts_run.length ≤ s.world.scripts_run.length + 1 := by
  unfold kill_potential
  rcases run_trigger_death env t s with h | h
  · obtain ⟨a1, _, _, a4, a5, a6⟩ := h
    rw [a1, a4, a5, a6]
    simp
  · obtain ⟨a1, _, _, a4, a5, a6⟩ := h
    rw [a1, a4, a5, a6]
    refine ⟨?_, ?_, ?_, ?_⟩
    · split <;> simp
    · simp
    · split <;> simp
    · split <;> simp

theorem run_triggers_bounds (ts : List (Env × LethalTrigger)) (s : Sim) :
    s.world.m_badguys ≤ (run_triggers ts s).world.m_badguys ∧
    kill_potential (run_triggers ts s) ≤ kill_potential s ∧
    (run_triggers ts s).world.notify_dead_calls ≤ s.world.notify_dead_calls + ts.length ∧
    (run_triggers ts s).world.scripts_run.length ≤ s.world.scripts_run.length + ts.length := by
  induction ts generalizing s with
  | nil => simp [run_triggers]
  | cons p rest ih =>
    obtain ⟨env, t⟩ := p
    obtain ⟨a1, a2, a3, a4⟩ := run_trigger_bounds env t s
    obtain ⟨b1, b2, b3, b4⟩ := ih (run_trigger env t s)
    simp only [run_triggers, List.length_cons]
    exact ⟨a1.trans b1, b2.trans a2, by omega, by omega⟩

/-! ## Claims -/

/-- C1 (as stated, refuted): after two `kill_fall` calls on an active badguy that has a
parent dispenser and a death script, the dispenser was notified twice and the script was
requested twice, so these two effects are not bounded by one; the same happens when a
`kill_fall` is followed by an out-of-sector tick. -/
theorem c1_notification_repeats :
    (run_triggers [(demo_env, LethalTrigger.kill_fall), (demo_env, LethalTrigger.kill_fall)]
        demo_active).world.notify_dead_calls = demo_active.world.notify_dead_calls + 2 ∧
    (run_triggers [(demo_env, LethalTrigger.kill_fall), (demo_env, LethalTrigger.kill_fall)]
        demo_active).world.scripts_run =
      demo_active.world.scripts_run ++ ["on_death();", "on_death();"] ∧
    ¬ ((run_triggers [(demo_env, LethalTrigger.kill_fall), (demo_env, LethalTrigger.kill_fall)]
        demo_active).world.notify_dead_calls ≤ demo_active.world.notify_dead_calls + 1) ∧
    (run_triggers [(demo_env, LethalTrigger.kill_fall), (demo_env, LethalTrigger.update_outside 0)]
        demo_active).world.notify_dead_calls = demo_active.world.notify_dead_calls + 2 := by
  decide

/-- C1 (amended): over every finite sequence of lethal triggers (`kill_fall`,
`kill_squished`, `ignite`, out-of-sector `update` ticks) the level kill counter never
decreases and rises by at most one in total; the spawner notification and the death-script
request happen at most once per trigger. -/
theorem c1_counter_at_most_once (ts : List (Env × LethalTrigger)) (s : Sim) :
    s.world.m_badguys ≤ (run_triggers ts s).world.m_badguys ∧
    (run_triggers ts s).world.m_badguys ≤ s.world.m_badguys + 1 ∧
    (run_triggers ts s).world.notify_dead_calls ≤ s.world.notify_dead_calls + ts.length ∧
    (run_triggers ts s).world.scripts_run.length ≤ s.world.scripts_run.length + ts.length := by
  obtain ⟨a1, a2, a3, a4⟩ := run_triggers_bounds ts s
  refine ⟨a1, ?_, a3, a4⟩
  unfold kill_potential at a2
  have h1 : (0 : Int) ≤ (if (run_triggers ts s).bg.m_countMe = true then 1 else 0) := by
    split <;> simp
  have h2 : (if s.bg.m_countMe = true then (1 : Int) else 0) ≤ 1 := by
    split <;> simp
  omega

/-- C2: `run_dead_script` raises the level kill counter by exactly one when the counted
flag is set and by nothing otherwise, and leaves the counted flag false; over any number
of calls the counter rises by at most one, and a second call changes neither the counter
nor the counted flag (nor any other member of the badguy). -/
theorem c2_run_dead_script_counter (s : Sim) :
    (run_dead_script s).world.m_badguys
      = s.world.m_badguys + (if s.bg.m_countMe then 1 else 0) ∧
    (run_dead_script s).bg.m_countMe = false ∧
    (∀ n : Nat, s.world.m_badguys ≤ (run_dead_script^[n] s).world.m_badguys ∧
      (run_dead_script^[n] s).world.m_badguys ≤ s.world.m_badguys + 1) ∧
    (run_dead_script (run_dead_script s)).world.m_badguys
      = (run_dead_script s).world.m_badguys ∧
    (run_dead_script (run_dead_script s)).bg.m_countMe = (run_dead_script s).bg.m_countMe ∧
    (run_dead_script (run_dead_script s)).bg = (run_dead_script s).bg := by
  have step : ∀ t : Sim, t.world.m_badguys ≤ (run_dead_script t).world.m_badguys ∧
      kill_potential (run_dead_script t) ≤ kill_potential t := by
    intro t
    obtain ⟨a1, _, _, a4, _, _⟩ := run_dead_script_once t
    unfold kill_potential
    rw [a1, a4]
    constructor
    · split <;> simp
    · simp
  have iter : ∀ (n : Nat) (t : Sim), t.world.m_badguys ≤ (run_dead_script^[n] t).world.m_badguys ∧
      kill_potential (run_dead_script^[n] t) ≤ kill_potential t := by
    intro n
    induction n with
    | zero => intro t; simp
    | succ k ih =>
      intro t
      rw [Function.iterate_succ_apply]
      exact ⟨(step t).1.trans (ih _).1, (ih _).2.trans (step t).2⟩
  obtain ⟨a1, _, _, a4, _, _⟩ := run_dead_script_once s
  obtain ⟨b1, _, _, b4, _, _⟩ := run_dead_script_once (run_dead_script s)
  refine ⟨a4, a1, ?_, ?_, ?_, ?_⟩
  · intro n
    refine ⟨(iter n s).1, ?_⟩
    have h := (iter n s).2
    unfold kill_potential at h
    have h1 : (0 : Int) ≤ (if (run_dead_script^[n] s).bg.m_countMe = true then 1 else 0) := by
      split <;> simp
    have h2 : (if s.bg.m_countMe = true then (1 : Int) else 0) ≤ 1 := by
      split <;> simp
    omega
  · rw [b4, a1]; simp
  · rw [b1, a1]
  · simp [run_dead_script]

/-- C3 (as stated, refuted): an active badguy is fall-killed (first death notification,
state Falling) and then leaves the sector; the out-of-sector tick marks it removed but
notifies the spawner and requests the script again, so the notification ran twice. -/
theorem c3_falling_notified_twice :
    (kill_fall demo_env demo_active).bg.m_state = State.STATE_FALLING ∧
    (kill_fall demo_env demo_active).world.notify_dead_calls = 1 ∧
    demo_env_outside.inside (kill_fall demo_env demo_active).bg.m_bbox = false ∧
    (update demo_env_outside 0 (kill_fall demo_env demo_active)).bg.removed = true ∧
    (update demo_env_outside 0 (kill_fall demo_env demo_active)).world.notify_dead_calls = 2 ∧
    (update demo_env_outside 0 (kill_fall demo_env demo_active)).world.scripts_run
      = ["on_death();", "on_death();"] := by
  decide

/-- C3 (amended): on every `update` tick on which the bounding box is outside the sector,
whatever the state, the badguy is marked removed, its active flag is cleared, its state is
left as it was, and the death notification runs exactly once on that tick, in addition to
any run made earlier; the kill counter rises only if the counted flag was still set. -/
theorem c3_out_of_sector_tick (env : Env) (elapsed_time : ℚ) (s : Sim)
    (hout : env.inside s.bg.m_bbox = false) :
    (update env elapsed_time s).bg.removed = true ∧
    (update env elapsed_time s).bg.m_is_active_flag = false ∧
    (update env elapsed_time s).bg.m_state = s.bg.m_state ∧
    DeathOnce s (update env elapsed_time s) := by
  refine ⟨?_, ?_, ?_, update_outside_death env elapsed_time s hout⟩ <;>
    simp [update, hout, BadGuy.remove_me, run_dead_script]

theorem c3_out_of_sector_tick_witness :
    demo_env_outside.inside demo_active.bg.m_bbox = false ∧
    (update demo_env_outside 0 demo_active).bg.removed = true ∧
    (update demo_env_outside 0 demo_active).bg.m_is_active_flag = false ∧
    (update demo_env_outside 0 demo_active).bg.m_state = demo_active.bg.m_state ∧
    DeathOnce demo_active (update demo_env_outside 0 demo_active) :=
  ⟨rfl, c3_out_of_sector_tick demo_env_outside 0 demo_active rfl⟩

/-- C4: while `is_active()` is false, `collision` answers `ABORT_MOVE` for every
counterpart and leaves the badguy and the world exactly as they were, and `collision_tile`
leaves the badguy and the world exactly as they were: no member changes, nothing is
removed and no death notification is made. -/
theorem c4_inactive_ignores_collisions (env : Env) (other : GameObject) (hit : CollisionHit)
    (tile_attributes : Nat) (s : Sim) (hinactive : s.bg.is_active = false) :
    collision env other hit s = (HitResponse.ABORT_MOVE, s) ∧
    collision_tile env tile_attributes s = s := by
  constructor
  · simp [collision, hinactive]
  · simp [collision_tile, hinactive]

theorem c4_inactive_ignores_collisions_witness :
    (⟨demo_badguy, demo_world⟩ : Sim).bg.is_active = false ∧
    collision demo_env (GameObject.player demo_player) ⟨false, false, true, false, false, ⟨0, 0⟩⟩
      ⟨demo_badguy, demo_world⟩ = (HitResponse.ABORT_MOVE, ⟨demo_badguy, demo_world⟩) ∧
    collision_tile demo_env Tile.HURTS ⟨demo_badguy, demo_world⟩ = ⟨demo_badguy, demo_world⟩ :=
  ⟨rfl, c4_inactive_ignores_collisions demo_env (GameObject.player demo_player)
    ⟨false, false, true, false, false, ⟨0, 0⟩⟩ Tile.HURTS ⟨demo_badguy, demo_world⟩ rfl⟩

theorem kill_fall_player_kills (env : Env) (s : Sim) :
    (kill_fall env s).world.player_kills = s.world.player_kills := by
  unfold kill_fall
  split
  · rfl
  · split <;> simp [run_dead_script, Sim.play, Sim.add_particles] <;>
      (repeat' split) <;> rfl

/-- C5: for an active badguy meeting a player, `collision` is the first-match-wins list
(1) from above and stone: fall-kill, `FORCE_MOVE`; (2) from above, frozen and butt-jump:
player bounced, fall-kill, `FORCE_MOVE`; (3) stone: velocity zeroed, `FORCE_MOVE`;
(4) invincible: fall-kill, `ABORT_MOVE`; (5) frozen: nothing, `FORCE_MOVE`; (6) otherwise
the player is killed and the badguy is unchanged, `FORCE_MOVE`.  Rule (3) leaves both
velocity components zero, and a frozen badguy never adds a player kill. -/
theorem c5_player_precedence (env : Env) (player : Player) (hit : CollisionHit) (s : Sim)
    (hactive : s.bg.is_active = true) :
    collision env (GameObject.player player) hit s
      = player_response_spec env (decide (player.get_bbox.p2.y < s.bg.m_bbox.p1.y + 16))
          player hit s ∧
    (collision_solid hit s.bg).m_physic.vx = 0 ∧ (collision_solid hit s.bg).m_physic.vy = 0 ∧
    (s.bg.m_frozen = true →
      (collision env (GameObject.player player) hit s).2.world.player_kills
        = s.world.player_kills) := by
  have hspec : collision env (GameObject.player player) hit s
      = player_response_spec env (decide (player.get_bbox.p2.y < s.bg.m_bbox.p1.y + 16))
          player hit s := by
    unfold collision player_response_spec collision_squished collision_player
    by_cases h1 : player.get_bbox.p2.y < s.bg.m_bbox.p1.y + 16 <;>
      by_cases h2 : player.is_stone = true <;>
      by_cases h3 : s.bg.m_frozen = true <;>
      by_cases h4 : player.m_does_buttjump = true <;>
      by_cases h5 : player.is_invincible = true <;>
      simp [hactive, h1, h2, h3, h4, h5]
  refine ⟨hspec, ?_, ?_, ?_⟩
  · unfold collision_solid update_on_ground_flag
    split <;> simp [Physic.set_velocity_x, Physic.set_velocity_y]
  · unfold collision_solid update_on_ground_flag
    split <;> simp [Physic.set_velocity_x, Physic.set_velocity_y]
  · intro hfrozen
    rw [hspec]
    unfold player_response_spec
    (repeat' split) <;>
      simp_all [kill_fall_player_kills, Sim.player_bounce, Sim.player_kill]

theorem c5_player_precedence_witness :
    demo_active.bg.is_active = true ∧
    collision demo_env (GameObject.player demo_player) demo_hit demo_active
      = player_response_spec demo_env
          (decide (demo_player.get_bbox.p2.y < demo_active.bg.m_bbox.p1.y + 16))
          demo_player demo_hit demo_active :=
  ⟨rfl, (c5_player_precedence demo_env demo_player demo_hit demo_active rfl).1⟩

theorem update_squished_before (env : Env) (elapsed_time t0 : ℚ) (u : Sim)
    (hin : env.inside u.bg.m_bbox = true) (hoff : is_offscreen env u.bg = false)
    (hstate : u.bg.m_state = State.STATE_SQUISHED)
    (htimer : u.bg.m_state_timer = Timer.start t0 SQUISH_TIME)
    (htime : env.game_time < t0 + 2) :
    (update env elapsed_time u).bg.m_state = State.STATE_SQUISHED ∧
    (update env elapsed_time u).bg.m_state_timer = Timer.start t0 SQUISH_TIME ∧
    (update env elapsed_time u).bg.removed = u.bg.removed := by
  have hcheck : ¬ (2 : ℚ) ≤ env.game_time - t0 := by linarith
  unfold update
  simp only [hin, hoff, Bool.not_true, Bool.false_eq_true, if_false, and_false]
  rw [hstate]
  simp [htimer, Timer.check, Timer.start, SQUISH_TIME, hcheck, apply_movement, hstate]

theorem update_squished_after (env : Env) (elapsed_time t0 : ℚ) (u : Sim)
    (hin : env.inside u.bg.m_bbox = true) (hoff : is_offscreen env u.bg = false)
    (hstate : u.bg.m_state = State.STATE_SQUISHED)
    (htimer : u.bg.m_state_timer = Timer.start t0 SQUISH_TIME)
    (htime : t0 + 2 ≤ env.game_time) :
    (update env elapsed_time u).bg.removed = true := by
  have hcheck : (2 : ℚ) ≤ env.game_time - t0 := by linarith
  unfold update
  simp only [hin, hoff, Bool.not_true, Bool.false_eq_true, if_false, and_false]
  rw [hstate]
  simp [htimer, Timer.check, Timer.start, SQUISH_TIME, hcheck, BadGuy.remove_me]

theorem squished_tick_before (t0 : ℚ) (r : Bool) (t : Tick) (s : Sim)
    (hstate : s.bg.m_state = State.STATE_SQUISHED)
    (htimer : s.bg.m_state_timer = Timer.start t0 SQUISH_TIME) (hrem : s.bg.removed = r)
    (hvis : tick_visible t s = true) (htime : t.env.game_time < t0 + 2) :
    (run_tick t s).bg.m_state = State.STATE_SQUISHED ∧
    (run_tick t s).bg.m_state_timer = Timer.start t0 SQUISH_TIME ∧
    (run_tick t s).bg.removed = r := by
  simp only [tick_visible, Bool.and_eq_true, Bool.not_eq_true'] at hvis
  obtain ⟨hin, hoff⟩ := hvis
  have h := update_squished_before t.env t.elapsed_time t0
    { s with bg := { s.bg with m_bbox := t.bbox } } hin hoff hstate htimer htime
  exact ⟨h.1, h.2.1, h.2.2.trans hrem⟩

theorem squished_tick_after (t0 : ℚ) (t : Tick) (s : Sim)
    (hstate : s.bg.m_state = State.STATE_SQUISHED)
    (htimer : s.bg.m_state_timer = Timer.start t0 SQUISH_TIME)
    (hvis : tick_visible t s = true) (htime : t0 + 2 ≤ t.env.game_time) :
    (run_tick t s).bg.removed = true := by
  simp only [tick_visible, Bool.and_eq_true, Bool.not_eq_true'] at hvis
  obtain ⟨hin, hoff⟩ := hvis
  exact update_squished_after t.env t.elapsed_time t0
    { s with bg := { s.bg with m_bbox := t.bbox } } hin hoff hstate htimer htime

theorem squished_ticks_before (t0 : ℚ) (r : Bool) (ticks : List Tick) (s : Sim)
    (hstate : s.bg.m_state = State.STATE_SQUISHED)
    (htimer : s.bg.m_state_timer = Timer.start t0 SQUISH_TIME) (hrem : s.bg.removed = r)
    (hticks : ticks_visible_before (t0 + 2) ticks s = true) :
    (run_ticks ticks s).bg.m_state = State.STATE_SQUISHED ∧
    (run_ticks ticks s).bg.m_state_timer = Timer.start t0 SQUISH_TIME ∧
    (run_ticks ticks s).bg.removed = r := by
  induction ticks generalizing s with
  | nil => exact ⟨hstate, htimer, hrem⟩
  | cons t rest ih =>
    simp only [ticks_visible_before, Bool.and_eq_true, decide_eq_true_eq] at hticks
    obtain ⟨⟨hvis, htime⟩, hrest⟩ := hticks
    obtain ⟨a1, a2, a3⟩ := squished_tick_before t0 r t s hstate htimer hrem hvis htime
    exact ih (run_tick t s) a1 a2 a3 hrest

theorem kill_squished_effect (env : Env) (object : GameObject) (s : Sim)
    (hactive : s.bg.is_active = true) (hstate : s.bg.m_state ≠ State.STATE_SQUISHED) :
    (kill_squished env object s).bg.m_state = State.STATE_SQUISHED ∧
    (kill_squished env object s).bg.m_state_timer = Timer.start env.game_time SQUISH_TIME ∧
    (kill_squished env object s).bg.removed = s.bg.removed := by
  cases object <;>
    simp [kill_squished, hactive, set_state, hstate, run_dead_script, Sim.play, BadGuy.set_group,
      Sim.player_bounce]

/-- C8 (as stated, refuted): an active, not frozen badguy is hit by an ordinary player from
directly above; the squish handler of the core denies, so the badguy stays Active, no timer
is started and the player is harmed instead. -/
theorem c8_base_collision_does_not_squish :
    demo_active.bg.is_active = true ∧ demo_active.bg.m_frozen = false ∧
    demo_player.is_stone = false ∧
    demo_player.get_bbox.p2.y < demo_active.bg.m_bbox.p1.y + 16 ∧
    (collision demo_env (GameObject.player demo_player) demo_hit demo_active).2.bg.m_state
      = State.STATE_ACTIVE ∧
    (collision demo_env (GameObject.player demo_player) demo_hit demo_active).2.bg.m_state_timer
      = demo_active.bg.m_state_timer ∧
    (collision demo_env (GameObject.player demo_player) demo_hit demo_active).2.world.player_kills
      = 1 := by
  refine ⟨rfl, rfl, rfl, ?_, ?_, ?_, ?_⟩ <;>
    simp [collision, collision_squished, collision_player, demo_player, demo_active, demo_badguy,
      BadGuy.create, BadGuy.initial, Player.get_bbox, Player.is_stone, Player.is_invincible,
      BadGuy.is_active, Sim.player_kill, demo_world]

/-- C8 (amended): the squish-kill routine `kill_squished`, which the collision handler of
the core never calls for a badguy that is not frozen (a variant's squish handler does), puts
an active badguy that is not yet Squished into state Squished with the state timer started
for 2 seconds and does not mark it removed; in the following in-sector, on-screen `update`
ticks it stays Squished and is not marked removed while the game time is less than 2
seconds past the start, and it is marked removed by the first such tick at or after that. -/
theorem c8_squished_removed_after_timer (env : Env) (object : GameObject) (s : Sim)
    (hactive : s.bg.is_active = true) (hstate : s.bg.m_state ≠ State.STATE_SQUISHED) :
    (kill_squished env object s).bg.m_state = State.STATE_SQUISHED ∧
    (kill_squished env object s).bg.m_state_timer = ⟨2, env.game_time⟩ ∧
    (kill_squished env object s).bg.removed = s.bg.removed ∧
    (∀ ticks : List Tick,
      ticks_visible_before (env.game_time + 2) ticks (kill_squished env object s) = true →
      (run_ticks ticks (kill_squished env object s)).bg.m_state = State.STATE_SQUISHED ∧
      (run_ticks ticks (kill_squished env object s)).bg.removed = s.bg.removed ∧
      ∀ t : Tick, tick_visible t (run_ticks ticks (kill_squished env object s)) = true →
        env.game_time + 2 ≤ t.env.game_time →
        (run_tick t (run_ticks ticks (kill_squished env object s))).bg.removed = true) := by
  obtain ⟨a1, a2, a3⟩ := kill_squished_effect env object s hactive hstate
  refine ⟨a1, a2, a3, ?_⟩
  intro ticks hticks
  obtain ⟨b1, b2, b3⟩ :=
    squished_ticks_before env.game_time s.bg.removed ticks _ a1 a2 a3 hticks
  exact ⟨b1, b3, fun t hvis htime => squished_tick_after env.game_time t _ b1 b2 hvis htime⟩

theorem c8_squished_removed_after_timer_witness :
    demo_active.bg.is_active = true ∧ demo_active.bg.m_state ≠ State.STATE_SQUISHED ∧
    (run_ticks [demo_tick_early]
      (kill_squished demo_env (GameObject.player demo_player) demo_active)).bg.removed = false ∧
    (run_tick demo_tick_late (run_ticks [demo_tick_early]
      (kill_squished demo_env (GameObject.player demo_player) demo_active))).bg.removed = true := by
  have hvis : ∀ (g : ℚ) (u : Sim),
      tick_visible ⟨{ demo_env with game_time := g }, 1 / 100, ⟨⟨0, 0⟩, ⟨32, 32⟩⟩⟩ u = true := by
    intro g u
    simp [tick_visible, is_offscreen, demo_env, demo_player, Player.get_bbox,
      Rectf.get_middle, X_OFFSCREEN_DISTANCE, Y_OFFSCREEN_DISTANCE]
    rw [abs_le]
    constructor <;> norm_num
  have h := (c8_squished_removed_after_timer demo_env (GameObject.player demo_player)
    demo_active rfl (by decide)).2.2.2 [demo_tick_early]
    (by
      simp only [ticks_visible_before, Bool.and_true, Bool.and_eq_true, decide_eq_true_eq]
      exact ⟨hvis 1 _, by norm_num [demo_tick_early, demo_env]⟩)
  exact ⟨rfl, by decide, h.2.1, h.2.2 demo_tick_late (hvis 2 _)
    (by norm_num [demo_tick_late, demo_env])⟩

/-- C9: `ignite` is a no-op whenever the badguy is not flammable or is already ignited:
the badguy (state, ignited flag, collision group, velocity, gravity setting, counted flag,
removal request) and the world (no death notification, no sound) are exactly as before. -/
theorem c9_ignite_noop (env : Env) (s : Sim)
    (h : s.bg.is_flammable = false ∨ s.bg.m_ignited = true) : ignite env s = s := by
  unfold ignite
  rcases h with h | h <;> simp [h]

theorem c9_ignite_noop_witness :
    (({ demo_active with bg := { demo_active.bg with flammable := false } } : Sim).bg.is_flammable
        = false ∨
      ({ demo_active with bg := { demo_active.bg with flammable := false } } : Sim).bg.m_ignited
        = true) ∧
    ignite demo_env { demo_active with bg := { demo_active.bg with flammable := false } }
      = { demo_active with bg := { demo_active.bg with flammable := false } } :=
  ⟨Or.inl rfl, c9_ignite_noop demo_env _ (Or.inl rfl)⟩

theorem set_state_m_state (env : Env) (st : State) (b : BadGuy) :
    (set_state env st b).m_state = st := by
  unfold set_state
  split
  · assumption
  · cases st <;> simp [BadGuy.set_group, BadGuy.remove_me]
    split <;> rfl

theorem set_state_physic (env : Env) (st : State) (b : BadGuy) :
    (set_state env st b).m_physic = b.m_physic ∧
    (set_state env st b).m_ignited = b.m_ignited := by
  unfold set_state
  split
  · simp
  · cases st <;> simp [BadGuy.set_group, BadGuy.remove_me]
    split <;> simp

theorem kill_fall_physic (env : Env) (s : Sim) :
    (kill_fall env s).bg.m_physic.vx = s.bg.m_physic.vx ∧
    (s.bg.m_physic.vy = 0 → (kill_fall env s).bg.m_physic.vy = 0) ∧
    (s.bg.m_physic.gravity_enabled_flag = true →
      (kill_fall env s).bg.m_physic.gravity_enabled_flag = true) ∧
    (kill_fall env s).bg.m_ignited = s.bg.m_ignited := by
  have h := set_state_physic env
  unfold kill_fall
  split
  · simp
  · split <;>
      simp [run_dead_script, Sim.play, Sim.add_particles, BadGuy.remove_me, h,
        Physic.set_velocity_y, Physic.set_acceleration_y, Physic.enable_gravity]

theorem kill_fall_falling (env : Env) (s : Sim) (hactive : s.bg.is_active = true)
    (hfrozen : s.bg.m_frozen = false) : (kill_fall env s).bg.m_state = State.STATE_FALLING := by
  simp [kill_fall, hactive, hfrozen, run_dead_script, Sim.play, set_state_m_state]

/-- C10 (as stated, refuted): a flammable, not ignited badguy on the ground whose sprite
has a ground-melting visual and a burning visual but no melting visual is set Burning by
`ignite`, not GroundMelting. -/
theorem c10_ground_melting_needs_melting :
    demo_burnable.bg.is_flammable = true ∧ demo_burnable.bg.m_ignited = false ∧
    demo_burnable.bg.m_sprite.has_action "ground-melting-left" = true ∧
    demo_burnable.bg.on_ground = true ∧
    (ignite demo_env demo_burnable).bg.m_state = State.STATE_BURNING := by
  decide

/-- C10 (amended): for a flammable, not yet ignited badguy `ignite` zeroes the velocity,
enables gravity, sets ignited and chooses: GroundMelting when the melting and the
ground-melting visuals both exist and the badguy is on the ground; otherwise Melting when
the melting visual exists; otherwise Burning when the burning visual exists; otherwise
InsideMelting when the inside-melting visual exists; otherwise it calls `kill_fall`, which
makes an active, not frozen badguy Falling. -/
theorem c10_ignite_outcome (env : Env) (s : Sim) (hflammable : s.bg.is_flammable = true)
    (hignited : s.bg.m_ignited = false) :
    (ignite env s).bg.m_physic.vx = 0 ∧ (ignite env s).bg.m_physic.vy = 0 ∧
    (ignite env s).bg.m_physic.gravity_enabled_flag = true ∧
    (ignite env s).bg.m_ignited = true ∧
    (s.bg.m_sprite.has_action "melting-left" = true →
      s.bg.m_sprite.has_action "ground-melting-left" = true → s.bg.on_ground = true →
      (ignite env s).bg.m_state = State.STATE_GROUND_MELTING) ∧
    (s.bg.m_sprite.has_action "melting-left" = true →
      ¬ (s.bg.m_sprite.has_action "ground-melting-left" = true ∧ s.bg.on_ground = true) →
      (ignite env s).bg.m_state = State.STATE_MELTING) ∧
    (s.bg.m_sprite.has_action "melting-left" = false →
      s.bg.m_sprite.has_action "burning-left" = true →
      (ignite env s).bg.m_state = State.STATE_BURNING) ∧
    (s.bg.m_sprite.has_action "melting-left" = false →
      s.bg.m_sprite.has_action "burning-left" = false →
      s.bg.m_sprite.has_action "inside-melting-left" = true →
      (ignite env s).bg.m_state = State.STATE_INSIDE_MELTING) ∧
    (s.bg.m_sprite.has_action "melting-left" = false →
      s.bg.m_sprite.has_action "burning-left" = false →
      s.bg.m_sprite.has_action "inside-melting-left" = false →
      ignite env s = kill_fall env { s with bg := ignite_prologue s.bg } ∧
      (s.bg.is_active = true → s.bg.m_frozen = false →
        (ignite env s).bg.m_state = State.STATE_FALLING)) := by
  have hp := set_state_physic env
  have hs := set_state_m_state env
  have hsprite : ∀ name, (s.bg.m_sprite.stop_animation).has_action name
      = s.bg.m_sprite.has_action name := fun _ => rfl
  have hfall : s.bg.m_sprite.has_action "melting-left" = false →
      s.bg.m_sprite.has_action "burning-left" = false →
      s.bg.m_sprite.has_action "inside-melting-left" = false →
      ignite env s = kill_fall env { s with bg := ignite_prologue s.bg } := by
    intro h1 h2 h3
    simp [ignite, hflammable, hignited, BadGuy.set_group, hsprite, h1, h2, h3, ignite_prologue]
  have hk := kill_fall_physic env { s with bg := ignite_prologue s.bg }
  cases hm : s.bg.m_sprite.has_action "melting-left"
  · cases hb : s.bg.m_sprite.has_action "burning-left"
    · cases hi : s.bg.m_sprite.has_action "inside-melting-left"
      · rw [hfall hm hb hi]
        obtain ⟨k1, k2, k3, k4⟩ := hk
        refine ⟨?_, k2 rfl, k3 rfl, ?_, ?_, ?_, ?_, ?_, ?_⟩
        · rw [k1]; rfl
        · rw [k4]; rfl
        · intro h; simp at h
        · intro h; simp at h
        · intro _ h; simp at h
        · intro _ _ h; simp at h
        · intro _ _ _
          exact ⟨rfl, fun ha hf => kill_fall_falling env _ ha hf⟩
      · simp [ignite, hflammable, hignited, BadGuy.set_group, hsprite, hm, hb, hi,
          run_dead_script, Sim.play, hp, hs, Physic.set_velocity_x, Physic.set_velocity_y,
          Physic.enable_gravity]
    · simp [ignite, hflammable, hignited, BadGuy.set_group, hsprite, hm, hb,
        run_dead_script, Sim.play, hp, hs, Physic.set_velocity_x, Physic.set_velocity_y,
        Physic.enable_gravity]
  · cases hg : s.bg.m_sprite.has_action "ground-melting-left" <;>
      cases ho : s.bg.m_on_ground_flag <;>
      simp [ignite, hflammable, hignited, BadGuy.set_group, hsprite, hm, hg, ho,
        run_dead_script, Sim.play, hp, hs, Physic.set_velocity_x, Physic.set_velocity_y,
        Physic.enable_gravity, BadGuy.on_ground]

theorem c10_ignite_outcome_witness :
    demo_meltable.bg.is_flammable = true ∧ demo_meltable.bg.m_ignited = false ∧
    (ignite demo_env demo_meltable).bg.m_physic.vx = 0 ∧
    (ignite demo_env demo_meltable).bg.m_ignited = true ∧
    (ignite demo_env demo_meltable).bg.m_state = State.STATE_GROUND_MELTING :=
  ⟨rfl, rfl, (c10_ignite_outcome demo_env demo_meltable rfl rfl).1,
    (c10_ignite_outcome demo_env demo_meltable rfl rfl).2.2.2.1,
    (c10_ignite_outcome demo_env demo_meltable rfl rfl).2.2.2.2.1 (by decide) (by decide) rfl⟩

theorem ignite_fallback (env : Env) (s : Sim) (hflammable : s.bg.is_flammable = true)
    (hignited : s.bg.m_ignited = false)
    (hm : s.bg.m_sprite.has_action "melting-left" = false)
    (hb : s.bg.m_sprite.has_action "burning-left" = false)
    (hi : s.bg.m_sprite.has_action "inside-melting-left" = false) :
    ignite env s = kill_fall env { s with bg := ignite_prologue s.bg } := by
  have hsprite : ∀ name, (s.bg.m_sprite.stop_animation).has_action name
      = s.bg.m_sprite.has_action name := fun _ => rfl
  simp [ignite, hflammable, hignited, BadGuy.set_group, hsprite, hm, hb, hi, ignite_prologue]

theorem ignite_visual_death (env : Env) (s : Sim) (hflammable : s.bg.is_flammable = true)
    (hignited : s.bg.m_ignited = false)
    (hvisual : s.bg.m_sprite.has_action "melting-left" = true ∨
      s.bg.m_sprite.has_action "burning-left" = true ∨
      s.bg.m_sprite.has_action "inside-melting-left" = true) :
    DeathOnce s (ignite env s) := by
  have h := set_state_death env
  unfold ignite
  rw [if_neg (by simp [hflammable, hignited])]
  dsimp only
  split
  · apply DeathOnce.of_frame
    split <;> simp [DeathFrame, Sim.play, BadGuy.set_group, h]
  · split
    · apply DeathOnce.of_frame
      simp [DeathFrame, Sim.play, BadGuy.set_group, h]
    · split
      · apply DeathOnce.of_frame
        simp [DeathFrame, Sim.play, BadGuy.set_group, h]
      · rename_i h1 h2 h3
        rcases hvisual with hv | hv | hv
        · exact absurd hv h1
        · exact absurd hv h2
        · exact absurd hv h3

theorem kill_fall_active_death (env : Env) (s : Sim) (hactive : s.bg.is_active = true) :
    DeathOnce s (kill_fall env s) := by
  have h := set_state_death env
  unfold kill_fall
  rw [if_neg (by simp [hactive])]
  split
  · dsimp only
    exact DeathOnce.remove_me
      (DeathOnce.of_frame (by simp [DeathFrame, Sim.play, Sim.add_particles]))
  · dsimp only
    apply DeathOnce.of_frame
    simp [DeathFrame, Sim.play, h]

/-- C11 (as stated, refuted): a flammable, not ignited badguy that is not active and whose
sprite has none of the ignition visuals is ignited through the fallback branch; `kill_fall`
returns at once, so no death notification is made: the counted flag stays set, the kill
counter does not move, the dispenser is not notified and no script is requested. -/
theorem c11_inactive_fallback_silent :
    demo_spawned.bg.is_flammable = true ∧ demo_spawned.bg.m_ignited = false ∧
    demo_spawned.bg.is_active = false ∧ demo_spawned.bg.m_countMe = true ∧
    (ignite demo_env demo_spawned).bg.m_ignited = true ∧
    (ignite demo_env demo_spawned).bg.m_countMe = true ∧
    (ignite demo_env demo_spawned).world.m_badguys = demo_spawned.world.m_badguys ∧
    (ignite demo_env demo_spawned).world.notify_dead_calls = 0 ∧
    (ignite demo_env demo_spawned).world.scripts_run = [] := by
  decide

/-- C11 (amended): for a flammable, not yet ignited badguy, `ignite` runs the death
notification exactly once during the call, leaving the counted flag false, whenever one of
the melting, burning or inside-melting visuals exists (whatever the state and the active
flag), and in the fallback branch whenever the badguy is active; in the fallback branch on
a badguy that is not active `kill_fall` returns at once and no notification is made. -/
theorem c11_ignite_notifies (env : Env) (s : Sim) (hflammable : s.bg.is_flammable = true)
    (hignited : s.bg.m_ignited = false) :
    ((s.bg.m_sprite.has_action "melting-left" = true ∨
        s.bg.m_sprite.has_action "burning-left" = true ∨
        s.bg.m_sprite.has_action "inside-melting-left" = true) →
      DeathOnce s (ignite env s) ∧ (ignite env s).bg.m_countMe = false) ∧
    (s.bg.m_sprite.has_action "melting-left" = false →
      s.bg.m_sprite.has_action "burning-left" = false →
      s.bg.m_sprite.has_action "inside-melting-left" = false →
      (s.bg.is_active = true →
        DeathOnce s (ignite env s) ∧ (ignite env s).bg.m_countMe = false) ∧
      (s.bg.is_active = false →
        DeathFrame s (ignite env s) ∧ (ignite env s).bg.m_countMe = s.bg.m_countMe ∧
        (ignite env s).world = s.world)) := by
  constructor
  · intro hvisual
    have h := ignite_visual_death env s hflammable hignited hvisual
    exact ⟨h, h.1⟩
  · intro hm hb hi
    rw [ignite_fallback env s hflammable hignited hm hb hi]
    constructor
    · intro hactive
      have h : DeathOnce s (kill_fall env { s with bg := ignite_prologue s.bg }) :=
        DeathFrame.then_once (by simp [DeathFrame, ignite_prologue])
          (kill_fall_active_death env _ hactive)
      exact ⟨h, h.1⟩
    · intro hinactive
      have hk : kill_fall env { s with bg := ignite_prologue s.bg }
          = { s with bg := ignite_prologue s.bg } := by
        unfold kill_fall
        rw [if_pos (by simpa [BadGuy.is_active, ignite_prologue] using hinactive)]
      rw [hk]
      simp [DeathFrame, ignite_prologue]

theorem c11_ignite_notifies_witness :
    demo_burnable.bg.is_flammable = true ∧ demo_burnable.bg.m_ignited = false ∧
    DeathOnce demo_burnable (ignite demo_env demo_burnable) ∧
    (ignite demo_env demo_burnable).bg.m_countMe = false :=
  ⟨rfl, rfl, (c11_ignite_notifies demo_env demo_burnable rfl rfl).1 (Or.inr (Or.inl (by decide)))⟩

theorem update_eq (env : Env) (elapsed_time : ℚ) (s : Sim) :
    update env elapsed_time s =
      if !env.inside s.bg.m_bbox then
        { (run_dead_script s) with
          bg := ({ (run_dead_script s).bg with m_is_active_flag := false } : BadGuy).remove_me }
      else
        { (update_switch env elapsed_time (update_cull env s)) with
          bg := { (update_switch env elapsed_time (update_cull env s)).bg with
                  m_on_ground_flag := false } } := rfl

theorem run_dead_script_bg (s : Sim) :
    (run_dead_script s).bg = { s.bg with m_countMe := false } := rfl

theorem set_state_keeps_not_init (env : Env) (st : State) (b : BadGuy)
    (hst : st ≠ State.STATE_INIT) :
    (set_state env st b).m_state ≠ State.STATE_INIT := by
  rw [set_state_m_state]
  exact hst

theorem freeze_m_state (b : BadGuy) : (freeze b).m_state = b.m_state := by
  unfold freeze
  dsimp only
  split
  · rfl
  · split <;> rfl

theorem unfreeze_m_state (b : BadGuy) : (unfreeze b).m_state = b.m_state := by
  unfold unfreeze
  dsimp only
  split <;> rfl

theorem kill_fall_not_init (env : Env) (s : Sim) (hs : s.bg.m_state ≠ State.STATE_INIT) :
    (kill_fall env s).bg.m_state ≠ State.STATE_INIT := by
  unfold kill_fall
  split
  · exact hs
  · split
    · simpa [run_dead_script_bg, BadGuy.remove_me, Sim.play, Sim.add_particles] using hs
    · simp [run_dead_script_bg, Sim.play, set_state_m_state]

theorem kill_squished_not_init (env : Env) (object : GameObject) (s : Sim)
    (hs : s.bg.m_state ≠ State.STATE_INIT) :
    (kill_squished env object s).bg.m_state ≠ State.STATE_INIT := by
  unfold kill_squished
  split
  · exact hs
  · cases object <;>
      simp [run_dead_script_bg, Sim.play, Sim.player_bounce, BadGuy.set_group, set_state_m_state]

theorem ignite_not_init (env : Env) (s : Sim) (hs : s.bg.m_state ≠ State.STATE_INIT) :
    (ignite env s).bg.m_state ≠ State.STATE_INIT := by
  unfold ignite
  split
  · exact hs
  · dsimp only
    split
    · split <;> simp [run_dead_script_bg, Sim.play, set_state_m_state]
    · split
      · simp [run_dead_script_bg, Sim.play, set_state_m_state]
      · split
        · simp [run_dead_script_bg, Sim.play, set_state_m_state]
        · apply kill_fall_not_init
          simpa [BadGuy.set_group] using hs

theorem collision_solid_m_state (hit : CollisionHit) (b : BadGuy) :
    (collision_solid hit b).m_state = b.m_state := by
  unfold collision_solid update_on_ground_flag
  dsimp only
  split <;> rfl

theorem collision_bullet_not_init (env : Env) (bullet : Bullet) (s : Sim)
    (hs : s.bg.m_state ≠ State.STATE_INIT) :
    (collision_bullet env bullet s).2.bg.m_state ≠ State.STATE_INIT := by
  have hi := ignite_not_init env s hs
  unfold collision_bullet
  (repeat' split) <;>
    simp [Sim.bullet_remove_me, Sim.bullet_ricochet, extinguish, unfreeze_m_state,
      freeze_m_state, hs, hi]

theorem collision_player_not_init (env : Env) (player : Player) (s : Sim)
    (hs : s.bg.m_state ≠ State.STATE_INIT) :
    (collision_player env player s).2.bg.m_state ≠ State.STATE_INIT := by
  have hk := kill_fall_not_init env s hs
  unfold collision_player
  (repeat' split) <;> simp [Sim.player_kill, hs, hk]

theorem collision_not_init (env : Env) (other : GameObject) (hit : CollisionHit) (s : Sim)
    (hs : s.bg.m_state ≠ State.STATE_INIT) :
    (collision env other hit s).2.bg.m_state ≠ State.STATE_INIT := by
  have hk := kill_fall_not_init env s hs
  have hk2 := kill_fall_not_init env s.player_bounce hs
  have hp := fun p => collision_player_not_init env p s hs
  have hb := fun b => collision_bullet_not_init env b s hs
  unfold collision collision_squished collision_badguy
  (repeat' split) <;> simp_all [collision_solid_m_state]

theorem collision_tile_not_init (env : Env) (tile_attributes : Nat) (s : Sim)
    (hs : s.bg.m_state ≠ State.STATE_INIT) :
    (collision_tile env tile_attributes s).bg.m_state ≠ State.STATE_INIT := by
  unfold collision_tile
  split
  · exact hs
  · dsimp only
    have key : ∀ t : Sim, t.bg.m_state ≠ State.STATE_INIT →
        (if tile_attributes &&& Tile.HURTS ≠ 0 ∧ t.bg.is_hurtable = true then
          if tile_attributes &&& Tile.FIRE ≠ 0 then
            if t.bg.is_flammable = true then ignite env t else t
          else if tile_attributes &&& Tile.ICE ≠ 0 then
            if t.bg.is_freezable = true then { t with bg := freeze t.bg } else t
          else kill_fall env t
        else t).bg.m_state ≠ State.STATE_INIT := by
      intro t ht
      have h1 := ignite_not_init env t ht
      have h2 := kill_fall_not_init env t ht
      (repeat' split) <;> simp [freeze_m_state, ht, h1, h2]
    apply key
    (repeat' split) <;> simp [Sim.play, hs]

theorem try_activate_not_init (env : Env) (s : Sim) (hs : s.bg.m_state ≠ State.STATE_INIT) :
    (try_activate env s).bg.m_state ≠ State.STATE_INIT := by
  unfold try_activate
  split
  · exact hs
  · split
    · dsimp only
      (repeat' split) <;> simp [activate, init_hook, set_state_m_state]
    · exact hs

theorem apply_movement_m_state (env : Env) (elapsed_time : ℚ) (b : BadGuy) :
    (apply_movement env elapsed_time b).m_state = b.m_state := rfl

theorem update_cull_not_init (env : Env) (s : Sim) (hs : s.bg.m_state ≠ State.STATE_INIT) :
    (update_cull env s).bg.m_state ≠ State.STATE_INIT := by
  unfold update_cull
  split
  · simp [set_state_m_state]
  · exact hs

theorem update_switch_not_init (env : Env) (elapsed_time : ℚ) (s : Sim)
    (hs : s.bg.m_state ≠ State.STATE_INIT) :
    (update_switch env elapsed_time s).bg.m_state ≠ State.STATE_INIT := by
  unfold update_switch
  split
  · rename_i h
    dsimp only
    split
    · simp [h]
    · unfold active_update
      dsimp only
      split <;> simp [apply_movement_m_state, h]
  · exact absurd (by assumption) hs
  · apply try_activate_not_init
    simpa [inactive_update] using hs
  · dsimp only
    split <;> simpa [BadGuy.remove_me, apply_movement_m_state] using hs
  · dsimp only
    split <;> simpa [BadGuy.remove_me, apply_movement_m_state] using hs
  · dsimp only
    split <;> simpa [BadGuy.remove_me, apply_movement_m_state] using hs
  · dsimp only
    split <;> simpa [BadGuy.remove_me, apply_movement_m_state] using hs
  · dsimp only
    split <;> simpa [BadGuy.remove_me, apply_movement_m_state] using hs
  · dsimp only
    split
    · simp [Sim.add_particles, set_state_m_state]
    · simpa [Sim.add_particles, apply_movement_m_state] using hs
  · simpa [apply_movement_m_state] using hs

theorem update_not_init (env : Env) (elapsed_time : ℚ) (s : Sim)
    (hs : s.bg.m_state ≠ State.STATE_INIT) :
    (update env elapsed_time s).bg.m_state ≠ State.STATE_INIT := by
  rw [update_eq]
  split
  · simpa [run_dead_script_bg, BadGuy.remove_me] using hs
  · exact update_switch_not_init env elapsed_time _ (update_cull_not_init env s hs)

theorem run_op_not_init (op : Op) (s : Sim) (hcore : op.by_core = true)
    (hs : s.bg.m_state ≠ State.STATE_INIT) : (run_op op s).bg.m_state ≠ State.STATE_INIT := by
  cases op with
  | update env elapsed_time => exact update_not_init env elapsed_time s hs
  | move bbox => exact hs
  | collision env other hit => exact collision_not_init env other hit s hs
  | collision_tile env tile_attributes => exact collision_tile_not_init env tile_attributes s hs
  | collision_bullet env bullet => exact collision_bullet_not_init env bullet s hs
  | kill_fall env => exact kill_fall_not_init env s hs
  | kill_squished env object => exact kill_squished_not_init env object s hs
  | freeze => simpa [run_op, freeze_m_state] using hs
  | unfreeze => simpa [run_op, unfreeze_m_state] using hs
  | ignite env => exact ignite_not_init env s hs
  | set_state env state_ =>
    apply set_state_keeps_not_init
    intro h
    rw [h] at hcore
    simp [Op.by_core] at hcore

/-- C13: once the state of a badguy is not Init, no sequence of operations of the core
(`update`, displacement of the box, `collision`, `collision_tile`, `collision_bullet`,
`kill_fall`, `kill_squished`, `freeze`, `unfreeze`, `ignite`, and `set_state` with the
targets the core uses) makes it Init again: the state is then always one of Active,
Inactive, Falling, Squished, Gear, Burning, Melting, GroundMelting, InsideMelting; and a
`try_activate` that activates leaves the state Active. -/
theorem c13_never_back_to_init (ops : List Op) (s : Sim)
    (hleft : s.bg.m_state ≠ State.STATE_INIT) (hcore : ∀ op ∈ ops, op.by_core = true) :
    (run_ops ops s).bg.m_state ≠ State.STATE_INIT ∧
    (run_ops ops s).bg.m_state ∈
      [State.STATE_ACTIVE, State.STATE_INACTIVE, State.STATE_FALLING, State.STATE_SQUISHED,
       State.STATE_GEAR, State.STATE_BURNING, State.STATE_MELTING,
       State.STATE_GROUND_MELTING, State.STATE_INSIDE_MELTING] ∧
    (∀ (env : Env) (t : Sim),
      (try_activate env t).bg.m_state = State.STATE_ACTIVE ∨ try_activate env t = t) := by
  have hmain : (run_ops ops s).bg.m_state ≠ State.STATE_INIT := by
    induction ops generalizing s with
    | nil => exact hleft
    | cons op rest ih =>
      exact ih (run_op op s)
        (run_op_not_init op s (hcore op (List.mem_cons_self op rest)) hleft)
        (fun o ho => hcore o (List.mem_cons_of_mem op ho))
  refine ⟨hmain, ?_, ?_⟩
  · revert hmain
    cases (run_ops ops s).bg.m_state <;> simp
  · intro env t
    unfold try_activate
    split
    · right; rfl
    · split
      · left
        dsimp only
        (repeat' split) <;> simp [activate, init_hook, set_state_m_state]
      · right; rfl

theorem c13_never_back_to_init_witness :
    demo_active.bg.m_state ≠ State.STATE_INIT ∧
    (run_ops [Op.kill_fall demo_env, Op.update demo_env_outside 0, Op.ignite demo_env]
      demo_active).bg.m_state ≠ State.STATE_INIT :=
  ⟨by decide,
    (c13_never_back_to_init
      [Op.kill_fall demo_env, Op.update demo_env_outside 0, Op.ignite demo_env] demo_active
      (by decide) (by simp [Op.by_core])).1⟩

theorem set_state_keeps (env : Env) (st : State) (b : BadGuy) :
    (set_state env st b).m_bbox = b.m_bbox ∧ (set_state env st b).m_dir = b.m_dir ∧
    (set_state env st b).m_start_dir = b.m_start_dir ∧
    (set_state env st b).m_is_initialized = b.m_is_initialized ∧
    (set_state env st b).m_frozen = b.m_frozen ∧
    (set_state env st b).m_is_active_flag = b.m_is_active_flag ∧
    (set_state env st b).m_layer = b.m_layer := by
  unfold set_state
  split
  · simp
  · cases st <;> simp [BadGuy.set_group, BadGuy.remove_me]
    split <;> simp

/-- C14: at the first activation (`try_activate` with a nearest player, the badguy not
off-screen and not yet initialised) a badguy configured Auto faces Right when the player's
left edge is strictly greater than the badguy's right edge and Left otherwise, and a badguy
configured Left or Right keeps its direction; a badguy constructed with direction Left or
Right has that direction after any `try_activate`. -/
theorem c14_auto_direction (env : Env) (s : Sim) (player : Player)
    (hplayer : env.get_nearest_player s.bg.m_bbox = some player)
    (hrange : is_offscreen env s.bg = false) (hfirst : s.bg.m_is_initialized = false) :
    (s.bg.m_start_dir = Direction.AUTO →
      (try_activate env s).bg.m_dir =
        if s.bg.m_bbox.p2.x < player.get_bbox.p1.x then Direction.RIGHT else Direction.LEFT) ∧
    (s.bg.m_start_dir ≠ Direction.AUTO → (try_activate env s).bg.m_dir = s.bg.m_dir) ∧
    (try_activate env s).bg.m_is_initialized = true ∧
    (try_activate env s).bg.m_state = State.STATE_ACTIVE ∧
    (try_activate env s).world.init_hook_calls = s.world.init_hook_calls + 1 ∧
    (∀ (bbox : Rectf) (d : Direction) (sprite : Sprite) (layer_ : Int) (f1 f2 f3 : Bool)
      (w : World) (e : Env), d ≠ Direction.AUTO →
      (try_activate e ⟨BadGuy.create bbox d sprite layer_ f1 f2 f3, w⟩).bg.m_dir = d) := by
  obtain ⟨k1, k2, k3, k4, _, _, _⟩ := set_state_keeps env State.STATE_ACTIVE s.bg
  refine ⟨?_, ?_, ?_, ?_, ?_, ?_⟩
  · intro hauto
    simp only [try_activate, hplayer, hrange, k1, k3, k4, hfirst, hauto]
    by_cases hx : s.bg.m_bbox.p2.x < player.get_bbox.p1.x <;>
      simp [hx, activate, init_hook]
  · intro hfixed
    simp [try_activate, hplayer, hrange, k1, k2, k3, k4, hfirst, hfixed, activate, init_hook]
  · simp [try_activate, hplayer, hrange, k1, k3, k4, hfirst, activate, init_hook]
  · simp only [try_activate, hplayer, hrange, k1, k3, k4, hfirst]
    by_cases hauto : s.bg.m_start_dir = Direction.AUTO <;>
      by_cases hx : s.bg.m_bbox.p2.x < player.get_bbox.p1.x <;>
      simp [hauto, hx, activate, init_hook, set_state_m_state]
  · simp only [try_activate, hplayer, hrange, k1, k3, k4, hfirst]
    by_cases hauto : s.bg.m_start_dir = Direction.AUTO <;>
      by_cases hx : s.bg.m_bbox.p2.x < player.get_bbox.p1.x <;>
      simp [hauto, hx, activate, init_hook]
  · intro bbox d sprite layer_ f1 f2 f3 w e hd
    have hk := set_state_keeps e State.STATE_ACTIVE (BadGuy.create bbox d sprite layer_ f1 f2 f3)
    obtain ⟨j1, j2, j3, j4, _, _, _⟩ := hk
    have hdir : (BadGuy.create bbox d sprite layer_ f1 f2 f3).m_dir = d := by
      simp [BadGuy.create, BadGuy.initial, hd]
    have hstart : (BadGuy.create bbox d sprite layer_ f1 f2 f3).m_start_dir = d := by
      simp [BadGuy.create, BadGuy.initial]
    unfold try_activate
    split
    · exact hdir
    · split
      · dsimp only
        simp [j2, j3, j4, hdir, hstart, hd, activate, init_hook]
        split <;> simp [j2, hdir]
      · exact hdir

theorem c14_auto_direction_witness :
    (demo_env_player_at 100).get_nearest_player demo_auto.bg.m_bbox
      = some ⟨⟨⟨100, 0⟩, ⟨100 + 32, 32⟩⟩, false, false, false⟩ ∧
    is_offscreen (demo_env_player_at 100) demo_auto.bg = false ∧
    demo_auto.bg.m_is_initialized = false ∧ demo_auto.bg.m_start_dir = Direction.AUTO ∧
    (try_activate (demo_env_player_at 100) demo_auto).bg.m_dir = Direction.RIGHT := by
  have hrange : is_offscreen (demo_env_player_at 100) demo_auto.bg = false := by
    simp [is_offscreen, demo_env_player_at, demo_env, demo_auto, BadGuy.from_reader,
      BadGuy.initial, Player.get_bbox, Rectf.get_middle, X_OFFSCREEN_DISTANCE,
      Y_OFFSCREEN_DISTANCE]
    rw [abs_le]
    constructor <;> norm_num
  have h := (c14_auto_direction (demo_env_player_at 100) demo_auto _ rfl hrange rfl).1
    (by decide)
  refine ⟨rfl, hrange, rfl, by decide, ?_⟩
  rw [h]
  norm_num [demo_auto, BadGuy.from_reader, BadGuy.initial, Player.get_bbox]

theorem str2dir_cases (s : String) :
    (s = "auto" ∧ str2dir s = Direction.AUTO) ∨ (s = "left" ∧ str2dir s = Direction.LEFT) ∨
    (s = "right" ∧ str2dir s = Direction.RIGHT) ∨
    (s ≠ "auto" ∧ s ≠ "left" ∧ s ≠ "right" ∧ str2dir s = Direction.AUTO) := by
  unfold str2dir
  by_cases h1 : s = "auto"
  · left; simp [h1]
  · by_cases h2 : s = "left"
    · right; left; simp [h2]
    · by_cases h3 : s = "right"
      · right; right; left
        subst h3
        exact ⟨rfl, by decide⟩
      · right; right; right; simp [h1, h2, h3]

/-- C15: construction from a reader is total for every direction string: the configured
direction is Auto for "auto", Left for "left", Right for "right" and Auto for every other
string (and when the property is absent), and the runtime direction after construction is
never Auto: it is Right exactly when the string is "right" and Left otherwise. -/
theorem c15_direction_config (s : String) (dead_script_prop : Option String) (bbox : Rectf)
    (sprite : Sprite) (layer_ : Int) (f1 f2 f3 : Bool) :
    str2dir "auto" = Direction.AUTO ∧ str2dir "left" = Direction.LEFT ∧
    str2dir "right" = Direction.RIGHT ∧
    (s ≠ "auto" → s ≠ "left" → s ≠ "right" → str2dir s = Direction.AUTO) ∧
    (BadGuy.from_reader (some s) dead_script_prop bbox sprite layer_ f1 f2 f3).m_start_dir
      = str2dir s ∧
    (BadGuy.from_reader (some s) dead_script_prop bbox sprite layer_ f1 f2 f3).m_dir
      ≠ Direction.AUTO ∧
    ((BadGuy.from_reader (some s) dead_script_prop bbox sprite layer_ f1 f2 f3).m_dir
      = Direction.RIGHT ↔ s = "right") ∧
    (s ≠ "right" →
      (BadGuy.from_reader (some s) dead_script_prop bbox sprite layer_ f1 f2 f3).m_dir
        = Direction.LEFT) ∧
    (BadGuy.from_reader none dead_script_prop bbox sprite layer_ f1 f2 f3).m_start_dir
      = Direction.AUTO ∧
    (BadGuy.from_reader none dead_script_prop bbox sprite layer_ f1 f2 f3).m_dir
      = Direction.LEFT := by
  have hdir : (BadGuy.from_reader (some s) dead_script_prop bbox sprite layer_ f1 f2 f3).m_dir
      = if str2dir s = Direction.AUTO then Direction.LEFT else str2dir s := by
    simp [BadGuy.from_reader]
  refine ⟨by decide, by decide, by decide, ?_, ?_, ?_, ?_, ?_, ?_, ?_⟩
  · intro h1 h2 h3
    simp [str2dir, h1, h2, h3]
  · simp [BadGuy.from_reader]
  · rw [hdir]
    rcases str2dir_cases s with ⟨_, hd⟩ | ⟨_, hd⟩ | ⟨_, hd⟩ | ⟨_, _, _, hd⟩ <;>
      rw [hd] <;> decide
  · rw [hdir]
    rcases str2dir_cases s with ⟨hs, hd⟩ | ⟨hs, hd⟩ | ⟨hs, hd⟩ | ⟨_, _, hs, hd⟩
    · rw [hd]; subst hs; decide
    · rw [hd]; subst hs; decide
    · rw [hd]; subst hs; decide
    · rw [hd]; simp [hs]
  · intro hs
    rw [hdir]
    rcases str2dir_cases s with ⟨_, hd⟩ | ⟨_, hd⟩ | ⟨h, _⟩ | ⟨_, _, _, hd⟩
    · rw [hd]; decide
    · rw [hd]; decide
    · exact absurd h hs
    · rw [hd]; decide
  · simp [BadGuy.from_reader]
    decide
  · simp [BadGuy.from_reader]
    decide

theorem c15_direction_config_witness :
    ("up" : String) ≠ "right" ∧
    (BadGuy.from_reader (some "up") none ⟨⟨0, 0⟩, ⟨32, 32⟩⟩ demo_sprite 50 true false true).m_dir
      = Direction.LEFT :=
  ⟨by decide,
    (c15_direction_config "up" none ⟨⟨0, 0⟩, ⟨32, 32⟩⟩ demo_sprite 50 true false true).2.2.2.2.2.2.2.1
      (by decide)⟩

/-- C18 (as stated, refuted): the active sample badguy is hurtable and not freezable; a
hurting tile flagged ice (and not fire) leaves it exactly as it was instead of fall-killing
it, and so does a hurting tile flagged fire on a badguy that is not flammable. -/
theorem c18_ice_tile_spares_unfreezable :
    demo_active.bg.is_active = true ∧ demo_active.bg.is_hurtable = true ∧
    demo_active.bg.is_freezable = false ∧ (Tile.HURTS ||| Tile.ICE) &&& Tile.HURTS ≠ 0 ∧
    collision_tile demo_env (Tile.HURTS ||| Tile.ICE) demo_active = demo_active ∧
    collision_tile demo_env (Tile.HURTS ||| Tile.ICE) demo_active ≠ kill_fall demo_env demo_active ∧
    collision_tile demo_env (Tile.HURTS ||| Tile.FIRE)
        { demo_active with bg := { demo_active.bg with flammable := false } }
      = { demo_active with bg := { demo_active.bg with flammable := false } } := by
  decide

/-- C18 (amended): for an active, hurtable badguy and a tile word with the hurts flag set,
`collision_tile` first updates the water flag and then applies exactly one of: for a tile
flagged fire, `ignite` if the badguy is flammable and nothing otherwise; for a tile not
flagged fire but flagged ice, `freeze` if the badguy is freezable and nothing otherwise; for
a tile flagged neither, `kill_fall`. -/
theorem c18_hurting_tile (env : Env) (tile_attributes : Nat) (s : Sim)
    (hactive : s.bg.is_active = true) (hhurtable : s.bg.is_hurtable = true)
    (hhurts : tile_attributes &&& Tile.HURTS ≠ 0) :
    collision_tile env tile_attributes s
      = tile_hurt_spec env tile_attributes (tile_water_spec tile_attributes s) ∧
    (tile_attributes &&& Tile.FIRE ≠ 0 → s.bg.is_flammable = true →
      collision_tile env tile_attributes s = ignite env (tile_water_spec tile_attributes s)) ∧
    (tile_attributes &&& Tile.FIRE = 0 → tile_attributes &&& Tile.ICE ≠ 0 →
      s.bg.is_freezable = true →
      collision_tile env tile_attributes s
        = { (tile_water_spec tile_attributes s) with
            bg := freeze (tile_water_spec tile_attributes s).bg }) ∧
    (tile_attributes &&& Tile.FIRE = 0 → tile_attributes &&& Tile.ICE = 0 →
      collision_tile env tile_attributes s = kill_fall env (tile_water_spec tile_attributes s)) ∧
    ((tile_attributes &&& Tile.FIRE ≠ 0 ∧ s.bg.is_flammable = false) ∨
      (tile_attributes &&& Tile.FIRE = 0 ∧ tile_attributes &&& Tile.ICE ≠ 0 ∧
        s.bg.is_freezable = false) →
      collision_tile env tile_attributes s = tile_water_spec tile_attributes s) := by
  have hw : (tile_water_spec tile_attributes s).bg.flammable = s.bg.flammable ∧
      (tile_water_spec tile_attributes s).bg.freezable = s.bg.freezable ∧
      (tile_water_spec tile_attributes s).bg.hurtable = s.bg.hurtable := by
    unfold tile_water_spec
    (repeat' split) <;> simp [Sim.play]
  have hmain : collision_tile env tile_attributes s
      = tile_hurt_spec env tile_attributes (tile_water_spec tile_attributes s) := by
    have hstep : (if tile_attributes &&& Tile.WATER = 0 ∧
          (if tile_attributes &&& Tile.WATER ≠ 0 ∧ s.bg.is_in_water = false then
            ({ s with bg := { s.bg with m_in_water := true } } : Sim).play "sounds/splash.ogg"
          else s).bg.is_in_water = true then
          { (if tile_attributes &&& Tile.WATER ≠ 0 ∧ s.bg.is_in_water = false then
              ({ s with bg := { s.bg with m_in_water := true } } : Sim).play "sounds/splash.ogg"
            else s) with
            bg := { (if tile_attributes &&& Tile.WATER ≠ 0 ∧ s.bg.is_in_water = false then
              ({ s with bg := { s.bg with m_in_water := true } } : Sim).play "sounds/splash.ogg"
            else s).bg with m_in_water := false } }
        else (if tile_attributes &&& Tile.WATER ≠ 0 ∧ s.bg.is_in_water = false then
            ({ s with bg := { s.bg with m_in_water := true } } : Sim).play "sounds/splash.ogg"
          else s)) = tile_water_spec tile_attributes s := by
      unfold tile_water_spec
      by_cases h1 : tile_attributes &&& Tile.WATER = 0 <;>
        cases h2 : s.bg.m_in_water <;> simp [h1, h2, BadGuy.is_in_water, Sim.play]
    unfold collision_tile
    rw [if_neg (by simp [hactive])]
    dsimp only
    rw [hstep]
    unfold tile_hurt_spec
    have hh : (tile_water_spec tile_attributes s).bg.is_hurtable = true := by
      unfold BadGuy.is_hurtable
      rw [hw.2.2]
      exact hhurtable
    rw [if_pos ⟨hhurts, hh⟩]
    by_cases hf : tile_attributes &&& Tile.FIRE = 0 <;>
      by_cases hi : tile_attributes &&& Tile.ICE = 0 <;>
      simp [hf, hi, BadGuy.is_flammable, BadGuy.is_freezable]
  refine ⟨hmain, ?_, ?_, ?_, ?_⟩
  · intro hf hfl
    rw [hmain]
    unfold BadGuy.is_flammable at hfl
    simp [tile_hurt_spec, hf, hw.1, hfl]
  · intro hf hi hfr
    rw [hmain]
    unfold BadGuy.is_freezable at hfr
    simp [tile_hurt_spec, hf, hi, hw.2.1, hfr]
  · intro hf hi
    rw [hmain]
    simp [tile_hurt_spec, hf, hi]
  · intro h
    rw [hmain]
    rcases h with ⟨hf, hfl⟩ | ⟨hf, hi, hfr⟩
    · unfold BadGuy.is_flammable at hfl
      simp [tile_hurt_spec, hf, hw.1, hfl]
    · unfold BadGuy.is_freezable at hfr
      simp [tile_hurt_spec, hf, hi, hw.2.1, hfr]

theorem c18_hurting_tile_witness :
    demo_active.bg.is_active = true ∧ demo_active.bg.is_hurtable = true ∧
    Tile.HURTS &&& Tile.HURTS ≠ 0 ∧
    collision_tile demo_env Tile.HURTS demo_active
      = kill_fall demo_env (tile_water_spec Tile.HURTS demo_active) :=
  ⟨rfl, rfl, by decide,
    (c18_hurting_tile demo_env Tile.HURTS demo_active rfl rfl (by decide)).2.2.2.1
      (by decide) (by decide)⟩

theorem try_activate_flag (env : Env) (s : Sim) :
    (try_activate env s).bg.m_is_active_flag = s.bg.m_is_active_flag := by
  have h := fun b => (set_state_keeps env State.STATE_ACTIVE b).2.2.2.2.2.1
  unfold try_activate
  split
  · rfl
  · split
    · dsimp only
      (repeat' split) <;> simp [activate, init_hook, h]
    · rfl

theorem update_switch_flag (env : Env) (elapsed_time : ℚ) (t : Sim) :
    (update_switch env elapsed_time t).bg.m_is_active_flag = true ↔
      t.bg.m_state = State.STATE_ACTIVE := by
  have hs := fun b => (set_state_keeps env State.STATE_GEAR b).2.2.2.2.2.1
  have ht := try_activate_flag env
  unfold update_switch
  split <;> rename_i hst <;> dsimp only <;> (try unfold active_update) <;>
    (try dsimp only) <;> (repeat' split) <;>
    simp [apply_movement, BadGuy.remove_me, Sim.add_particles, inactive_update, ht, hs, hst]

theorem update_cull_active (env : Env) (s : Sim) :
    (update_cull env s).bg.m_state = State.STATE_ACTIVE ↔
      (s.bg.m_state = State.STATE_ACTIVE ∧ is_offscreen env s.bg = false) := by
  unfold update_cull
  split
  · rename_i h
    simp [set_state_m_state, h.2]
  · rename_i h
    constructor
    · intro hst
      refine ⟨hst, ?_⟩
      cases hoff : is_offscreen env s.bg
      · rfl
      · exact absurd ⟨by rw [hst]; decide, hoff⟩ h
    · exact fun hh => hh.1

/-- C19 (as stated, refuted): in editor mode a tick on an in-sector, on-screen badguy in
state Active leaves `is_active()` true: the flag is set before the editor test, which only
skips `active_update`. -/
theorem c19_editor_tick_keeps_active :
    demo_env_editor.editor_active = true ∧ demo_active.bg.m_state = State.STATE_ACTIVE ∧
    (update demo_env_editor (1 / 100) demo_active).bg.m_is_active_flag = true ∧
    (update demo_env_editor (1 / 100)
      { demo_active with bg := { demo_active.bg with m_is_active_flag := false } }
      ).bg.m_is_active_flag = true := by
  have hoff : ∀ b : BadGuy, b.m_bbox = ⟨⟨0, 0⟩, ⟨32, 32⟩⟩ →
      is_offscreen demo_env_editor b = false := by
    intro b hb
    simp [is_offscreen, demo_env_editor, demo_env, hb, Rectf.get_middle, X_OFFSCREEN_DISTANCE,
      Y_OFFSCREEN_DISTANCE]
    constructor <;> rw [abs_le] <;> constructor <;> norm_num
  have hcull : ∀ s : Sim, s.bg.m_bbox = ⟨⟨0, 0⟩, ⟨32, 32⟩⟩ →
      update_cull demo_env_editor s = s := by
    intro s hs
    simp [update_cull, hoff s.bg hs]
  refine ⟨rfl, rfl, ?_, ?_⟩
  · rw [update_eq, if_neg (by decide), hcull _ rfl]
    exact (update_switch_flag demo_env_editor (1 / 100) demo_active).2 rfl
  · rw [update_eq, if_neg (by decide), hcull _ rfl]
    exact (update_switch_flag demo_env_editor (1 / 100) _).2 rfl

/-- C19 (amended): after an `update` tick `is_active()` is true exactly when the badguy was
inside the sector and the tick was dispatched in state Active, that is, the badguy was in
state Active and not off-screen; editor mode makes no difference to the flag.  In every
other case (out of sector, culled, Init, Inactive, Falling, Squished, Gear, Burning,
Melting, GroundMelting, InsideMelting) the flag is false after the tick. -/
theorem c19_active_flag_after_tick (env : Env) (elapsed_time : ℚ) (s : Sim) :
    ((update env elapsed_time s).bg.m_is_active_flag = true ↔
      (env.inside s.bg.m_bbox = true ∧ (update_cull env s).bg.m_state = State.STATE_ACTIVE)) ∧
    ((update env elapsed_time s).bg.m_is_active_flag = true ↔
      (env.inside s.bg.m_bbox = true ∧ s.bg.m_state = State.STATE_ACTIVE ∧
        is_offscreen env s.bg = false)) := by
  have h1 : (update env elapsed_time s).bg.m_is_active_flag = true ↔
      (env.inside s.bg.m_bbox = true ∧
        (update_cull env s).bg.m_state = State.STATE_ACTIVE) := by
    rw [update_eq]
    cases hin : env.inside s.bg.m_bbox
    · simp [BadGuy.remove_me]
    · simp only [Bool.not_true, Bool.false_eq_true, if_false, true_and]
      exact update_switch_flag env elapsed_time (update_cull env s)
  refine ⟨h1, ?_⟩
  rw [h1, update_cull_active]

/-- C20: `set_state` with the state the badguy is already in changes nothing (the state
timer is not restarted, the collision group is not reassigned, no removal is requested: the
whole record is the same); hence calling `set_state` twice with the same state, at whatever
game times, is the same as calling it once, for every state and every badguy. -/
theorem c20_set_state_idempotent (env later : Env) (st : State) (b : BadGuy) :
    (b.m_state = st → set_state env st b = b) ∧
    (b.m_state = st → (set_state env st b).m_state_timer = b.m_state_timer ∧
      (set_state env st b).m_group = b.m_group ∧ (set_state env st b).removed = b.removed) ∧
    set_state later st (set_state env st b) = set_state env st b := by
  have hsame : ∀ (e : Env) (c : BadGuy), c.m_state = st → set_state e st c = c := by
    intro e c hc
    unfold set_state
    rw [if_pos hc]
  refine ⟨hsame env b, ?_, hsame later _ (set_state_m_state env st b)⟩
  intro h
  rw [hsame env b h]
  exact ⟨rfl, rfl, rfl⟩

theorem c20_set_state_idempotent_witness :
    demo_active.bg.m_state = State.STATE_ACTIVE ∧
    set_state demo_env State.STATE_ACTIVE demo_active.bg = demo_active.bg ∧
    set_state demo_env_editor State.STATE_SQUISHED
        (set_state demo_env State.STATE_SQUISHED demo_active.bg)
      = set_state demo_env State.STATE_SQUISHED demo_active.bg :=
  ⟨rfl, (c20_set_state_idempotent demo_env demo_env State.STATE_ACTIVE demo_active.bg).1 rfl,
    (c20_set_state_idempotent demo_env demo_env_editor State.STATE_SQUISHED
      demo_active.bg).2.2⟩

theorem is_offscreen_congr (env : Env) (b c : BadGuy) (h : c.m_bbox = b.m_bbox) :
    is_offscreen env c = is_offscreen env b := by
  unfold is_offscreen
  rw [h]

theorem try_activate_offscreen (env : Env) (s : Sim) (hoff : is_offscreen env s.bg = true) :
    try_activate env s = s := by
  unfold try_activate
  split
  · rfl
  · simp [hoff]

theorem set_state_inactive (env : Env) (b : BadGuy) (hstate : b.m_state ≠ State.STATE_INACTIVE) :
    set_state env State.STATE_INACTIVE b =
      { b with m_state := State.STATE_INACTIVE,
               m_group := CollisionGroup.COLGROUP_DISABLED,
               removed := b.removed ||
                 decide (b.m_state = State.STATE_SQUISHED ∨ b.m_state = State.STATE_FALLING) } := by
  unfold set_state
  rw [if_neg hstate]
  by_cases h : b.m_state = State.STATE_SQUISHED ∨ b.m_state = State.STATE_FALLING
  · simp [h, BadGuy.set_group, BadGuy.remove_me]
  · simp [h, BadGuy.set_group]

theorem update_culled (env : Env) (elapsed_time : ℚ) (s : Sim)
    (hin : env.inside s.bg.m_bbox = true) (hoff : is_offscreen env s.bg = true)
    (hstate : s.bg.m_state ≠ State.STATE_INACTIVE) :
    update env elapsed_time s =
      { bg := { (set_state env State.STATE_INACTIVE s.bg) with
                m_is_active_flag := false, m_on_ground_flag := false },
        world := if s.bg.m_state = State.STATE_ACTIVE then (deactivate s).world else s.world } := by
  have hcull : update_cull env s =
      { bg := set_state env State.STATE_INACTIVE s.bg,
        world := if s.bg.m_state = State.STATE_ACTIVE then (deactivate s).world else s.world } := by
    unfold update_cull
    rw [if_pos ⟨hstate, hoff⟩]
    by_cases ha : s.bg.m_state = State.STATE_ACTIVE <;> simp [ha, deactivate]
  have hbox : (set_state env State.STATE_INACTIVE s.bg).m_bbox = s.bg.m_bbox :=
    (set_state_keeps env State.STATE_INACTIVE s.bg).1
  rw [update_eq, if_neg (by simp [hin]), hcull]
  unfold update_switch
  simp only [set_state_m_state, inactive_update]
  rw [try_activate_offscreen]
  rw [← hoff]
  exact is_offscreen_congr env s.bg _ hbox

/-- C21: entering Inactive from any other state through `set_state` sets the collision group
to `COLGROUP_DISABLED` and requests removal exactly when the previous state was Squished or
Falling (a removal requested earlier stays); and an in-sector `update` tick on which
`is_offscreen()` holds moves a badguy from every state other than Inactive to Inactive
under this very rule, leaving `is_active()` false. -/
theorem c21_entering_inactive (env : Env) (s : Sim)
    (hstate : s.bg.m_state ≠ State.STATE_INACTIVE) :
    (set_state env State.STATE_INACTIVE s.bg).m_state = State.STATE_INACTIVE ∧
    (set_state env State.STATE_INACTIVE s.bg).m_group = CollisionGroup.COLGROUP_DISABLED ∧
    ((set_state env State.STATE_INACTIVE s.bg).removed = true ↔
      (s.bg.removed = true ∨ s.bg.m_state = State.STATE_SQUISHED ∨
        s.bg.m_state = State.STATE_FALLING)) ∧
    (s.bg.removed = false →
      ((set_state env State.STATE_INACTIVE s.bg).removed = true ↔
        (s.bg.m_state = State.STATE_SQUISHED ∨ s.bg.m_state = State.STATE_FALLING))) ∧
    (∀ elapsed_time : ℚ, env.inside s.bg.m_bbox = true → is_offscreen env s.bg = true →
      (update env elapsed_time s).bg.m_state = State.STATE_INACTIVE ∧
      (update env elapsed_time s).bg.m_group = CollisionGroup.COLGROUP_DISABLED ∧
      ((update env elapsed_time s).bg.removed = true ↔
        (s.bg.removed = true ∨ s.bg.m_state = State.STATE_SQUISHED ∨
          s.bg.m_state = State.STATE_FALLING)) ∧
      (update env elapsed_time s).bg.m_is_active_flag = false) := by
  have hset := set_state_inactive env s.bg hstate
  have hrem : (set_state env State.STATE_INACTIVE s.bg).removed = true ↔
      (s.bg.removed = true ∨ s.bg.m_state = State.STATE_SQUISHED ∨
        s.bg.m_state = State.STATE_FALLING) := by
    rw [hset]
    simp
  refine ⟨by rw [hset], by rw [hset], hrem, ?_, ?_⟩
  · intro hfresh
    rw [hrem, hfresh]
    simp
  · intro elapsed_time hin hoff
    rw [update_culled env elapsed_time s hin hoff hstate]
    refine ⟨by rw [hset], by rw [hset], hrem, rfl⟩

theorem c21_entering_inactive_witness :
    (kill_fall demo_env demo_active).bg.m_state ≠ State.STATE_INACTIVE ∧
    (demo_env_player_at 5000).inside (kill_fall demo_env demo_active).bg.m_bbox = true ∧
    is_offscreen (demo_env_player_at 5000) (kill_fall demo_env demo_active).bg = true ∧
    (update (demo_env_player_at 5000) 0 (kill_fall demo_env demo_active)).bg.m_state
      = State.STATE_INACTIVE ∧
    (update (demo_env_player_at 5000) 0 (kill_fall demo_env demo_active)).bg.removed = true := by
  have hoff : is_offscreen (demo_env_player_at 5000) (kill_fall demo_env demo_active).bg
      = true := by
    rw [is_offscreen_congr (demo_env_player_at 5000) demo_active.bg _ (by decide)]
    simp [is_offscreen, demo_env_player_at, demo_env, demo_active, demo_badguy, BadGuy.create,
      BadGuy.initial, Player.get_bbox, Rectf.get_middle, X_OFFSCREEN_DISTANCE,
      Y_OFFSCREEN_DISTANCE]
    norm_num
  have h := (c21_entering_inactive (demo_env_player_at 5000) (kill_fall demo_env demo_active)
    (by decide)).2.2.2.2 0 rfl hoff
  exact ⟨by decide, rfl, hoff, h.1, h.2.2.1.2 (Or.inr (Or.inr (by decide)))⟩

theorem try_activate_init (env : Env) (s : Sim) :
    try_activate env s = s ∨
    ((try_activate env s).bg.m_state = State.STATE_ACTIVE ∧
      (try_activate env s).bg.m_is_initialized = true ∧
      (try_activate env s).world.init_hook_calls
        = s.world.init_hook_calls + (if s.bg.m_is_initialized then 0 else 1)) := by
  have hk := set_state_keeps env State.STATE_ACTIVE s.bg
  have hs := set_state_m_state env State.STATE_ACTIVE s.bg
  unfold try_activate
  split
  · left; rfl
  · split
    · right
      dsimp only
      cases hinit : s.bg.m_is_initialized <;>
        simp [hk.2.2.2.1, hinit, activate, init_hook, hs]
      (repeat' split) <;> simp [hs]
    · left; rfl

theorem update_switch_init (env : Env) (elapsed_time : ℚ) (s : Sim) :
    InitKept s (update_switch env elapsed_time s) ∨
    Activated s (update_switch env elapsed_time s) := by
  have hg := fun b => set_state_keeps env State.STATE_GEAR b
  have hgs := fun b => set_state_m_state env State.STATE_GEAR b
  unfold update_switch
  split
  · rename_i hst
    left
    dsimp only
    split
    · simp [InitKept, hst]
    · unfold active_update
      dsimp only
      split <;> simp [InitKept, apply_movement, hst]
  · rename_i hst
    rcases try_activate_init env
      (inactive_update elapsed_time
        { s with bg := { s.bg with m_is_active_flag := false } }) with h | h
    · left
      rw [h]
      simp [InitKept, inactive_update, hst]
    · right
      exact ⟨Or.inl hst, h.1, h.2.1, h.2.2⟩
  · rename_i hst
    rcases try_activate_init env
      (inactive_update elapsed_time
        { s with bg := { s.bg with m_is_active_flag := false } }) with h | h
    · left
      rw [h]
      simp [InitKept, inactive_update, hst]
    · right
      exact ⟨Or.inr hst, h.1, h.2.1, h.2.2⟩
  all_goals
    rename_i hst
    left
    dsimp only
    (repeat' split) <;>
      simp [InitKept, apply_movement, BadGuy.remove_me, Sim.add_particles, hst, hg, hgs]

theorem update_cull_onscreen (env : Env) (s : Sim)
    (h : ¬ (s.bg.m_state ≠ State.STATE_INACTIVE ∧ is_offscreen env s.bg = true)) :
    update_cull env s = s := by
  unfold update_cull
  rw [if_neg h]

theorem update_init (env : Env) (elapsed_time : ℚ) (s : Sim) :
    InitKept s (update env elapsed_time s) ∨ Activated s (update env elapsed_time s) := by
  cases hin : env.inside s.bg.m_bbox
  · left
    rw [update_eq]
    simp [hin, InitKept, run_dead_script_bg, BadGuy.remove_me, run_dead_script]
    (repeat' split) <;> rfl
  · by_cases hc : s.bg.m_state ≠ State.STATE_INACTIVE ∧ is_offscreen env s.bg = true
    · left
      rw [update_culled env elapsed_time s hin hc.2 hc.1]
      have hk := (set_state_keeps env State.STATE_INACTIVE s.bg).2.2.2.1
      have hs := set_state_m_state env State.STATE_INACTIVE s.bg
      refine ⟨hk, ?_, ?_⟩
      · dsimp only
        split <;> rfl
      · intro h
        rw [show ({ (set_state env State.STATE_INACTIVE s.bg) with
            m_is_active_flag := false, m_on_ground_flag := false } : BadGuy).m_state
            = (set_state env State.STATE_INACTIVE s.bg).m_state from rfl, hs] at h
        exact absurd h (by decide)
    · rw [update_eq, if_neg (by simp [hin]), update_cull_onscreen env s hc]
      rcases update_switch_init env elapsed_time s with h | h
      · left; exact h
      · right; exact h

theorem run_tick_init (t : Tick) (s : Sim) :
    InitKept s (run_tick t s) ∨ Activated s (run_tick t s) :=
  update_init t.env t.elapsed_time { s with bg := { s.bg with m_bbox := t.bbox } }

theorem run_tick_init_count (t : Tick) (s : Sim) :
    (run_tick t s).world.init_hook_calls = s.world.init_hook_calls +
      (if s.bg.m_is_initialized = false ∧ (run_tick t s).bg.m_is_initialized = true
        then 1 else 0) ∧
    (s.bg.m_is_initialized = true → (run_tick t s).bg.m_is_initialized = true) ∧
    ((s.bg.m_is_initialized = false → s.bg.m_state ≠ State.STATE_ACTIVE) →
      (run_tick t s).bg.m_is_initialized = false →
      (run_tick t s).bg.m_state ≠ State.STATE_ACTIVE) := by
  rcases run_tick_init t s with ⟨k1, k2, k3⟩ | ⟨_, _, k3, k4⟩
  · rw [k1, k2]
    refine ⟨?_, fun h => h, fun hinv hno hact => hinv hno (k3 hact)⟩
    cases s.bg.m_is_initialized <;> simp
  · rw [k3, k4]
    refine ⟨?_, fun _ => rfl, fun _ hno => absurd hno (by decide)⟩
    cases s.bg.m_is_initialized <;> simp

theorem init_count_compose (a b c : Bool) (n1 n2 n3 : Nat)
    (h1 : n2 = n1 + if a = false ∧ b = true then 1 else 0)
    (h2 : n3 = n2 + if b = false ∧ c = true then 1 else 0)
    (m1 : a = true → b = true) (m2 : b = true → c = true) :
    n3 = n1 + if a = false ∧ c = true then 1 else 0 := by
  cases a <;> cases b <;> cases c <;> simp_all

theorem run_ticks_init_count (ticks : List Tick) (s : Sim) :
    (run_ticks ticks s).world.init_hook_calls = s.world.init_hook_calls +
      (if s.bg.m_is_initialized = false ∧ (run_ticks ticks s).bg.m_is_initialized = true
        then 1 else 0) ∧
    (s.bg.m_is_initialized = true → (run_ticks ticks s).bg.m_is_initialized = true) ∧
    ((s.bg.m_is_initialized = false → s.bg.m_state ≠ State.STATE_ACTIVE) →
      (run_ticks ticks s).bg.m_is_initialized = false →
      (run_ticks ticks s).bg.m_state ≠ State.STATE_ACTIVE) := by
  induction ticks generalizing s with
  | nil =>
    refine ⟨?_, fun h => h, fun hinv => hinv⟩
    cases h : s.bg.m_is_initialized <;> simp [run_ticks, h]
  | cons t rest ih =>
    obtain ⟨c1, c2, c3⟩ := run_tick_init_count t s
    obtain ⟨d1, d2, d3⟩ := ih (run_tick t s)
    simp only [run_ticks]
    exact ⟨init_count_compose _ _ _ _ _ _ c1 d1 c2 d2, fun h => d2 (c2 h),
      fun hinv => d3 (c3 hinv)⟩

/-- C22: over any sequence of `update` ticks on one badguy the first-time hook
`initialize()` is called at most once, namely on the tick on which the initialised flag
turns true, which is the tick of the first transition to Active; it is never called again
on later re-activations, and the initialised flag, once true, stays true.  A badguy that
starts uninitialised and not Active (as every freshly constructed one does) is never Active
without having been initialised. -/
theorem c22_initialize_once (ticks : List Tick) (s : Sim) :
    (run_ticks ticks s).world.init_hook_calls = s.world.init_hook_calls +
      (if s.bg.m_is_initialized = false ∧ (run_ticks ticks s).bg.m_is_initialized = true
        then 1 else 0) ∧
    (s.bg.m_is_initialized = true →
      (run_ticks ticks s).bg.m_is_initialized = true ∧
      (run_ticks ticks s).world.init_hook_calls = s.world.init_hook_calls) ∧
    ((s.bg.m_is_initialized = false → s.bg.m_state ≠ State.STATE_ACTIVE) →
      (run_ticks ticks s).bg.m_is_initialized = false →
      (run_ticks ticks s).bg.m_state ≠ State.STATE_ACTIVE) ∧
    (∀ (t : Tick) (u : Sim), InitKept u (run_tick t u) ∨ Activated u (run_tick t u)) ∧
    (∀ (t : Tick) (u : Sim), u.bg.m_is_initialized = false →
      u.bg.m_state ≠ State.STATE_ACTIVE → (run_tick t u).bg.m_state = State.STATE_ACTIVE →
      (run_tick t u).world.init_hook_calls = u.world.init_hook_calls + 1 ∧
      (run_tick t u).bg.m_is_initialized = true) ∧
    (∀ (bbox : Rectf) (d : Direction) (sprite : Sprite) (layer_ : Int) (f1 f2 f3 : Bool),
      (BadGuy.create bbox d sprite layer_ f1 f2 f3).m_is_initialized = false ∧
      (BadGuy.create bbox d sprite layer_ f1 f2 f3).m_state = State.STATE_INIT) := by
  obtain ⟨c1, c2, c3⟩ := run_ticks_init_count ticks s
  refine ⟨c1, ?_, c3, run_tick_init, ?_, ?_⟩
  · intro h
    refine ⟨c2 h, ?_⟩
    rw [c1, h]
    simp
  · intro t u hno hstate hact
    rcases run_tick_init t u with ⟨_, _, k3⟩ | ⟨_, _, k3, k4⟩
    · exact absurd (k3 hact) hstate
    · rw [k4, hno]
      exact ⟨by simp, k3⟩
  · intro bbox d sprite layer_ f1 f2 f3
    simp [BadGuy.create, BadGuy.initial]

theorem try_activate_onscreen (env : Env) (s : Sim) (player : Player)
    (hplayer : env.get_nearest_player s.bg.m_bbox = some player)
    (hon : is_offscreen env s.bg = false) :
    (try_activate env s).bg.m_state = State.STATE_ACTIVE ∧
    (try_activate env s).bg.removed = s.bg.removed := by
  have hrem : (set_state env State.STATE_ACTIVE s.bg).removed = s.bg.removed := by
    unfold set_state
    split
    · rfl
    · simp [BadGuy.set_group]
  simp only [try_activate, hplayer, hon, Bool.not_false, if_true]
  constructor <;> (repeat' split) <;> simp [activate, init_hook, set_state_m_state, hrem]

theorem update_activates (env : Env) (elapsed_time : ℚ) (s : Sim) (player : Player)
    (hin : env.inside s.bg.m_bbox = true)
    (hplayer : env.get_nearest_player s.bg.m_bbox = some player)
    (hon : is_offscreen env s.bg = false)
    (hstate : s.bg.m_state = State.STATE_INIT ∨ s.bg.m_state = State.STATE_INACTIVE) :
    (update env elapsed_time s).bg.m_state = State.STATE_ACTIVE ∧
    (update env elapsed_time s).bg.removed = s.bg.removed := by
  have ht := try_activate_onscreen env
    (inactive_update elapsed_time { s with bg := { s.bg with m_is_active_flag := false } })
    player hplayer (by rw [← hon]; exact is_offscreen_congr env s.bg _ rfl)
  rw [update_eq, if_neg (by simp [hin]), update_cull_onscreen env s (by simp [hon])]
  unfold update_switch
  rcases hstate with h | h <;> rw [h] <;> exact ht

theorem demo_onscreen (g : ℚ) (b : BadGuy) (hb : b.m_bbox = ⟨⟨0, 0⟩, ⟨32, 32⟩⟩) :
    is_offscreen { demo_env with game_time := g } b = false := by
  simp [is_offscreen, demo_env, demo_player, Player.get_bbox, Rectf.get_middle, hb,
    X_OFFSCREEN_DISTANCE, Y_OFFSCREEN_DISTANCE]
  rw [abs_le]
  constructor <;> norm_num

theorem demo_far_offscreen (g : ℚ) (b : BadGuy) (hb : b.m_bbox = ⟨⟨0, 0⟩, ⟨32, 32⟩⟩) :
    is_offscreen { demo_env_player_at 5000 with game_time := g } b = true := by
  simp [is_offscreen, demo_env_player_at, demo_env, Player.get_bbox, Rectf.get_middle, hb,
    X_OFFSCREEN_DISTANCE, Y_OFFSCREEN_DISTANCE]
  norm_num

theorem c22_initialize_once_witness :
    demo_spawned.bg.m_is_initialized = false ∧
    demo_spawned.bg.m_state ≠ State.STATE_ACTIVE ∧
    (run_tick demo_tick_early demo_spawned).bg.m_state = State.STATE_ACTIVE ∧
    (run_tick demo_tick_early demo_spawned).world.init_hook_calls
      = demo_spawned.world.init_hook_calls + 1 ∧
    (run_ticks [demo_tick_far, demo_tick_back]
        (run_tick demo_tick_early demo_spawned)).world.init_hook_calls
      = (run_tick demo_tick_early demo_spawned).world.init_hook_calls := by
  have hact : (run_tick demo_tick_early demo_spawned).bg.m_state = State.STATE_ACTIVE :=
    (update_activates demo_tick_early.env demo_tick_early.elapsed_time
      { demo_spawned with bg := { demo_spawned.bg with m_bbox := demo_tick_early.bbox } }
      demo_player rfl rfl (demo_onscreen 1 _ rfl) (Or.inl rfl)).1
  have hfirst := (c22_initialize_once [] demo_spawned).2.2.2.2.1 demo_tick_early demo_spawned
    rfl (by decide) hact
  have hlater := (c22_initialize_once [demo_tick_far, demo_tick_back]
    (run_tick demo_tick_early demo_spawned)).2.1 hfirst.2
  exact ⟨rfl, by decide, hact, hfirst.1, hlater.2⟩

theorem flag_kept_refl (s : Sim) : FlagKept s s := ⟨rfl, Or.inl rfl⟩

theorem flag_kept_trans {s t u : Sim} (h1 : FlagKept s t) (h2 : FlagKept t u) :
    FlagKept s u := by
  refine ⟨h2.1.trans h1.1, ?_⟩
  rcases h2.2 with h | h
  · rcases h1.2 with k | k
    · exact Or.inl (h.trans k)
    · right; rw [h]; exact k
  · exact Or.inr h

theorem set_state_active_flag (env : Env) (st : State) (b : BadGuy) :
    (set_state env st b).m_is_active_flag = b.m_is_active_flag :=
  (set_state_keeps env st b).2.2.2.2.2.1

theorem kill_fall_flag_kept (env : Env) (s : Sim) : FlagKept s (kill_fall env s) := by
  unfold kill_fall
  split
  · exact flag_kept_refl s
  · split
    · exact ⟨rfl, Or.inl rfl⟩
    · refine ⟨?_, Or.inr ?_⟩
      · simp [run_dead_script_bg, Sim.play, set_state_active_flag]
      · simp [run_dead_script_bg, Sim.play, set_state_m_state, State.dying]

theorem kill_squished_flag_kept (env : Env) (object : GameObject) (s : Sim) :
    FlagKept s (kill_squished env object s) := by
  unfold kill_squished
  split
  · exact flag_kept_refl s
  · refine ⟨?_, Or.inr ?_⟩
    · cases object <;>
        simp [run_dead_script_bg, Sim.play, Sim.player_bounce, BadGuy.set_group,
          set_state_active_flag]
    · cases object <;>
        simp [run_dead_script_bg, Sim.play, Sim.player_bounce, BadGuy.set_group,
          set_state_m_state, State.dying]

theorem ignite_flag_kept (env : Env) (s : Sim) : FlagKept s (ignite env s) := by
  unfold ignite
  split
  · exact flag_kept_refl s
  · dsimp only
    split
    · split <;> refine ⟨?_, Or.inr ?_⟩ <;>
        simp [run_dead_script_bg, Sim.play, BadGuy.set_group, set_state_active_flag,
          set_state_m_state, State.dying]
    · split
      · refine ⟨?_, Or.inr ?_⟩ <;>
          simp [run_dead_script_bg, Sim.play, BadGuy.set_group, set_state_active_flag,
            set_state_m_state, State.dying]
      · split
        · refine ⟨?_, Or.inr ?_⟩ <;>
            simp [run_dead_script_bg, Sim.play, BadGuy.set_group, set_state_active_flag,
              set_state_m_state, State.dying]
        · exact flag_kept_trans ⟨rfl, Or.inl rfl⟩ (kill_fall_flag_kept env _)

theorem freeze_flag_kept (s : Sim) : FlagKept s { s with bg := freeze s.bg } := by
  refine ⟨?_, Or.inl (freeze_m_state s.bg)⟩
  unfold freeze
  dsimp only
  split
  · rfl
  · split <;> rfl

theorem unfreeze_flag_kept (s : Sim) : FlagKept s { s with bg := unfreeze s.bg } := by
  refine ⟨?_, Or.inl (unfreeze_m_state s.bg)⟩
  unfold unfreeze
  dsimp only
  split <;> rfl

theorem collision_bullet_flag_kept (env : Env) (bullet : Bullet) (s : Sim) :
    FlagKept s (collision_bullet env bullet s).2 := by
  have hi := ignite_flag_kept env s
  have hf := freeze_flag_kept s
  have hu := unfreeze_flag_kept s
  unfold collision_bullet
  (repeat' split) <;>
    first
    | exact flag_kept_refl s
    | exact hi
    | exact hf
    | exact hu

theorem collision_player_flag_kept (env : Env) (player : Player) (s : Sim) :
    FlagKept s (collision_player env player s).2 := by
  have hk := kill_fall_flag_kept env s
  unfold collision_player
  (repeat' split) <;>
    first
    | exact flag_kept_refl s
    | exact hk

theorem collision_flag_kept (env : Env) (other : GameObject) (hit : CollisionHit) (s : Sim) :
    FlagKept s (collision env other hit s).2 := by
  have hk := kill_fall_flag_kept env s
  have hk2 : FlagKept s (kill_fall env s.player_bounce) :=
    flag_kept_trans ⟨rfl, Or.inl rfl⟩ (kill_fall_flag_kept env s.player_bounce)
  have hp := fun p => collision_player_flag_kept env p s
  have hb := fun b => collision_bullet_flag_kept env b s
  have hsolid : FlagKept s { s with bg := collision_solid hit s.bg } := by
    refine ⟨?_, Or.inl (collision_solid_m_state hit s.bg)⟩
    unfold collision_solid update_on_ground_flag
    dsimp only
    split <;> rfl
  unfold collision collision_squished collision_badguy
  (repeat' split) <;>
    first
    | exact flag_kept_refl s
    | exact hk
    | exact hk2
    | exact hsolid
    | exact hp _
    | exact hb _

theorem collision_tile_flag_kept (env : Env) (tile_attributes : Nat) (s : Sim) :
    FlagKept s (collision_tile env tile_attributes s) := by
  unfold collision_tile
  split
  · exact flag_kept_refl s
  · dsimp only
    have key : ∀ t : Sim, FlagKept s t →
        FlagKept s (if tile_attributes &&& Tile.HURTS ≠ 0 ∧ t.bg.is_hurtable = true then
          if tile_attributes &&& Tile.FIRE ≠ 0 then
            if t.bg.is_flammable = true then ignite env t else t
          else if tile_attributes &&& Tile.ICE ≠ 0 then
            if t.bg.is_freezable = true then { t with bg := freeze t.bg } else t
          else kill_fall env t
        else t) := by
      intro t ht
      have h1 := flag_kept_trans ht (ignite_flag_kept env t)
      have h2 := flag_kept_trans ht (kill_fall_flag_kept env t)
      have h3 := flag_kept_trans ht (freeze_flag_kept t)
      (repeat' split) <;>
        first
        | exact ht
        | exact h1
        | exact h2
        | exact h3
    apply key
    (repeat' split) <;> exact ⟨rfl, Or.inl rfl⟩

theorem update_switch_active_state (env : Env) (elapsed_time : ℚ) (t : Sim)
    (h : t.bg.m_state = State.STATE_ACTIVE) :
    (update_switch env elapsed_time t).bg.m_state = State.STATE_ACTIVE := by
  unfold update_switch
  rw [h]
  dsimp only
  split
  · exact h
  · unfold active_update
    dsimp only
    split <;> exact h

theorem update_flag_sound (env : Env) (elapsed_time : ℚ) (s : Sim) :
    active_flag_sound (update env elapsed_time s) := by
  intro hflag
  rw [update_eq] at hflag ⊢
  cases hin : env.inside s.bg.m_bbox
  · simp [hin, BadGuy.remove_me] at hflag
  · simp only [hin, Bool.not_true, Bool.false_eq_true, if_false] at hflag ⊢
    have hdisp := (update_switch_flag env elapsed_time (update_cull env s)).1 hflag
    have hst := update_switch_active_state env elapsed_time _ hdisp
    change (update_switch env elapsed_time (update_cull env s)).bg.m_state ≠ State.STATE_INIT ∧
      (update_switch env elapsed_time (update_cull env s)).bg.m_state ≠ State.STATE_INACTIVE
    rw [hst]
    exact ⟨by decide, by decide⟩

theorem flag_kept_sound {s t : Sim} (hs : active_flag_sound s) (h : FlagKept s t) :
    active_flag_sound t := by
  intro hflag
  rw [h.1] at hflag
  rcases h.2 with k | k
  · rw [k]; exact hs hflag
  · revert k
    cases t.bg.m_state <;> simp [State.dying]

theorem run_op_flag_sound (op : Op) (s : Sim) (hext : op.external = true)
    (hs : active_flag_sound s) : active_flag_sound (run_op op s) := by
  cases op with
  | update env elapsed_time => exact update_flag_sound env elapsed_time s
  | move bbox => exact hs
  | collision env other hit => exact flag_kept_sound hs (collision_flag_kept env other hit s)
  | collision_tile env tile_attributes =>
    exact flag_kept_sound hs (collision_tile_flag_kept env tile_attributes s)
  | collision_bullet env bullet =>
    exact flag_kept_sound hs (collision_bullet_flag_kept env bullet s)
  | kill_fall env => exact flag_kept_sound hs (kill_fall_flag_kept env s)
  | kill_squished env object => exact flag_kept_sound hs (kill_squished_flag_kept env object s)
  | freeze => exact flag_kept_sound hs (freeze_flag_kept s)
  | unfreeze => exact flag_kept_sound hs (unfreeze_flag_kept s)
  | ignite env => exact flag_kept_sound hs (ignite_flag_kept env s)
  | set_state env state_ => simp [Op.external] at hext

theorem run_ops_flag_sound (ops : List Op) (s : Sim) (hext : ∀ op ∈ ops, op.external = true)
    (hs : active_flag_sound s) : active_flag_sound (run_ops ops s) := by
  induction ops generalizing s with
  | nil => exact hs
  | cons op rest ih =>
    exact ih (run_op op s) (fun o ho => hext o (List.mem_cons_of_mem op ho))
      (run_op_flag_sound op s (hext op (List.mem_cons_self op rest)) hs)

/-- C23: `kill_fall` and `kill_squished` are complete no-ops whenever `is_active()` is
false: the badguy (state, collision group, velocity, layer, counted flag, removal request)
and the world (no death notification, no sound) are exactly as before.  In particular a
badguy in state Init or Inactive cannot be killed by either routine: in every state reached
from a freshly constructed badguy by calls from outside, Init and Inactive come with
`is_active()` false. -/
theorem c23_kill_needs_active (env : Env) (object : GameObject) (s : Sim)
    (hinactive : s.bg.is_active = false) :
    kill_fall env s = s ∧ kill_squished env object s = s ∧
    (∀ (bbox : Rectf) (d : Direction) (sprite : Sprite) (layer_ : Int) (f1 f2 f3 : Bool)
      (w : World) (ops : List Op), (∀ op ∈ ops, op.external = true) →
      ((run_ops ops ⟨BadGuy.create bbox d sprite layer_ f1 f2 f3, w⟩).bg.m_state
          = State.STATE_INIT ∨
        (run_ops ops ⟨BadGuy.create bbox d sprite layer_ f1 f2 f3, w⟩).bg.m_state
          = State.STATE_INACTIVE) →
      (run_ops ops ⟨BadGuy.create bbox d sprite layer_ f1 f2 f3, w⟩).bg.is_active = false ∧
      kill_fall env (run_ops ops ⟨BadGuy.create bbox d sprite layer_ f1 f2 f3, w⟩)
        = run_ops ops ⟨BadGuy.create bbox d sprite layer_ f1 f2 f3, w⟩ ∧
      kill_squished env object (run_ops ops ⟨BadGuy.create bbox d sprite layer_ f1 f2 f3, w⟩)
        = run_ops ops ⟨BadGuy.create bbox d sprite layer_ f1 f2 f3, w⟩) := by
  have hnoop : ∀ t : Sim, t.bg.is_active = false →
      kill_fall env t = t ∧ kill_squished env object t = t := by
    intro t ht
    constructor
    · unfold kill_fall
      rw [if_pos (by simp [ht])]
    · unfold kill_squished
      rw [if_pos (by simp [ht])]
  refine ⟨(hnoop s hinactive).1, (hnoop s hinactive).2, ?_⟩
  intro bbox d sprite layer_ f1 f2 f3 w ops hext hstate
  have hfresh : active_flag_sound ⟨BadGuy.create bbox d sprite layer_ f1 f2 f3, w⟩ := by
    intro hflag
    simp [BadGuy.create, BadGuy.initial] at hflag
  have hsound := run_ops_flag_sound ops _ hext hfresh
  have hflag : (run_ops ops ⟨BadGuy.create bbox d sprite layer_ f1 f2 f3, w⟩).bg.is_active
      = false := by
    unfold BadGuy.is_active
    cases hf : (run_ops ops ⟨BadGuy.create bbox d sprite layer_ f1 f2 f3, w⟩).bg.m_is_active_flag
    · rfl
    · have h := hsound hf
      rcases hstate with k | k
      · exact absurd k h.1
      · exact absurd k h.2
  exact ⟨hflag, (hnoop _ hflag).1, (hnoop _ hflag).2⟩

theorem c23_kill_needs_active_witness :
    demo_spawned.bg.is_active = false ∧
    kill_fall demo_env demo_spawned = demo_spawned ∧
    kill_squished demo_env (GameObject.player demo_player) demo_spawned = demo_spawned :=
  ⟨rfl, (c23_kill_needs_active demo_env (GameObject.player demo_player) demo_spawned rfl).1,
    (c23_kill_needs_active demo_env (GameObject.player demo_player) demo_spawned rfl).2.1⟩

/-- C24 (the code at the failing input): the sample badguy is ignited and enters Burning, a
dying state, with its death notification made.  An in-sector tick on which it is off-screen
sets it Inactive without requesting removal, because `set_state` requests removal only when
the last state was Squished or Falling; the next in-sector, on-screen tick activates it
again: it is Active and still not marked removed. -/
theorem c24_burning_returns_to_active :
    (ignite demo_env demo_flammable).bg.m_state = State.STATE_BURNING ∧
    State.STATE_BURNING.dying = true ∧
    (ignite demo_env demo_flammable).bg.m_countMe = false ∧
    demo_tick_far.env.inside demo_tick_far.bbox = true ∧
    demo_tick_back.env.inside demo_tick_back.bbox = true ∧
    (run_ticks [demo_tick_far] (ignite demo_env demo_flammable)).bg.m_state
      = State.STATE_INACTIVE ∧
    (run_ticks [demo_tick_far] (ignite demo_env demo_flammable)).bg.removed = false ∧
    (run_ticks [demo_tick_far, demo_tick_back] (ignite demo_env demo_flammable)).bg.m_state
      = State.STATE_ACTIVE ∧
    (run_ticks [demo_tick_far, demo_tick_back] (ignite demo_env demo_flammable)).bg.removed
      = false := by
  have hfar := update_culled demo_tick_far.env demo_tick_far.elapsed_time
    { (ignite demo_env demo_flammable) with
      bg := { (ignite demo_env demo_flammable).bg with m_bbox := demo_tick_far.bbox } }
    rfl (demo_far_offscreen 3 _ rfl) (by decide)
  have hstate : (run_tick demo_tick_far (ignite demo_env demo_flammable)).bg.m_state
      = State.STATE_INACTIVE := by
    unfold run_tick
    rw [hfar]
    exact set_state_m_state _ _ _
  have hkept : (run_tick demo_tick_far (ignite demo_env demo_flammable)).bg.removed = false := by
    unfold run_tick
    rw [hfar, set_state_inactive _ _ (by decide)]
    decide
  have hback := update_activates demo_tick_back.env demo_tick_back.elapsed_time
    { (run_tick demo_tick_far (ignite demo_env demo_flammable)) with
      bg := { (run_tick demo_tick_far (ignite demo_env demo_flammable)).bg with
              m_bbox := demo_tick_back.bbox } }
    demo_player rfl rfl (demo_onscreen 4 _ rfl) (Or.inr hstate)
  exact ⟨by decide, rfl, by decide, rfl, rfl, hstate, hkept, hback.1, hback.2.trans hkept⟩

theorem set_state_removed_mono (env : Env) (st : State) (b : BadGuy) (h : b.removed = true) :
    (set_state env st b).removed = true := by
  unfold set_state
  split
  · exact h
  · cases st <;> simp [BadGuy.set_group, BadGuy.remove_me, h]

theorem try_activate_removed_mono (env : Env) (s : Sim) (h : s.bg.removed = true) :
    (try_activate env s).bg.removed = true := by
  have hs := set_state_removed_mono env State.STATE_ACTIVE s.bg h
  unfold try_activate
  split
  · exact h
  · split
    · dsimp only
      (repeat' split) <;> simp [activate, init_hook, hs]
    · exact h

theorem update_switch_removed_mono (env : Env) (elapsed_time : ℚ) (s : Sim)
    (h : s.bg.removed = true) : (update_switch env elapsed_time s).bg.removed = true := by
  have hg := fun b hb => set_state_removed_mono env State.STATE_GEAR b hb
  have ht := try_activate_removed_mono env
    (inactive_update elapsed_time { s with bg := { s.bg with m_is_active_flag := false } }) h
  unfold update_switch
  split
  · dsimp only
    split
    · exact h
    · unfold active_update
      dsimp only
      split <;> exact h
  · exact ht
  · exact ht
  all_goals
    dsimp only
    (repeat' split) <;>
      first
      | exact h
      | rfl
      | (apply hg; exact h)

theorem update_removed_mono (env : Env) (elapsed_time : ℚ) (s : Sim)
    (h : s.bg.removed = true) : (update env elapsed_time s).bg.removed = true := by
  rw [update_eq]
  split
  · rfl
  · apply update_switch_removed_mono
    unfold update_cull
    split
    · dsimp only
      apply set_state_removed_mono
      split <;> exact h
    · exact h

theorem update_doomed (env : Env) (elapsed_time : ℚ) (s : Sim) (h : doomed s) :
    doomed (update env elapsed_time s) := by
  rcases h with h | h
  · exact Or.inl (update_removed_mono env elapsed_time s h)
  · cases hin : env.inside s.bg.m_bbox
    · left
      rw [update_eq]
      simp [hin, BadGuy.remove_me]
    · by_cases hc : s.bg.m_state ≠ State.STATE_INACTIVE ∧ is_offscreen env s.bg = true
      · left
        rw [update_culled env elapsed_time s hin hc.2 hc.1, set_state_inactive env s.bg hc.1]
        rcases h with h | h <;> simp [h]
      · rw [update_eq, if_neg (by simp [hin]), update_cull_onscreen env s hc]
        unfold update_switch
        rcases h with h | h
        · right; left
          rw [h]
          exact h
        · rw [h]
          dsimp only
          split
          · left; rfl
          · right; right; exact h

theorem run_ticks_doomed (ticks : List Tick) (s : Sim) (h : doomed s) :
    doomed (run_ticks ticks s) := by
  induction ticks generalizing s with
  | nil => exact h
  | cons t rest ih =>
    exact ih (run_tick t s) (update_doomed t.env t.elapsed_time _ h)

/-- What does hold of the dying states: a badguy that is Falling or Squished is never found
Active after any sequence of `update` ticks unless it has been marked removed. -/
theorem falling_squished_never_revived (ticks : List Tick) (s : Sim)
    (hdying : s.bg.m_state = State.STATE_FALLING ∨ s.bg.m_state = State.STATE_SQUISHED)
    (hactive : (run_ticks ticks s).bg.m_state = State.STATE_ACTIVE) :
    (run_ticks ticks s).bg.removed = true := by
  rcases run_ticks_doomed ticks s (Or.inr hdying) with h | h | h
  · exact h
  · rw [hactive] at h
    exact absurd h (by decide)
  · rw [hactive] at h
    exact absurd h (by decide)

end SuperTux
